import Mathlib

/-! XNA_Song.c: the single-stream song player of FAudio.

A shallow embedding of `src/XNA_Song.c`.  The file-scope globals of the C file
(`songVolume`, `songVoice`, `activeVorbisInfo`, `activeVorbis`, `songCache`) become the
fields of a `Session` record that every operation takes and returns.  Calls that leave the
file (audio engine, stream decoder, allocator, media pipeline) are appended to a trace kept
in the session, each with a snapshot of which handles the session held when it was issued.
-/

namespace XNASong

/-! ## C strings -/

/-- The NUL character that terminates a C string. -/
def NUL : Char := Char.ofNat 0

/-- The characters a `const char *` denotes: everything before the first NUL.  The end of
the list counts as a terminator. -/
def cstr : List Char → List Char
  | [] => []
  | c :: cs => if c = NUL then [] else c :: cstr cs

/-- Modelled from the spec: `FAudio_strlen` is a macro of FAudio_internal.h, not of
XNA_Song.c; it is the C `strlen`, the number of characters before the terminator (the spec
speaks of the last 4 characters of the name). -/
def FAudio_strlen : List Char → Nat
  | [] => 0
  | c :: cs => if c = NUL then 0 else FAudio_strlen cs + 1

/-- Modelled from the spec: `FAudio_strcmp` is a macro of FAudio_internal.h, not of
XNA_Song.c; it is the C `strcmp`, the case-sensitive exact comparison the spec names.  It
walks both strings while the characters agree and are not NUL; the result is the difference
of the first pair that differs, 0 if both end together. -/
def FAudio_strcmp : List Char → List Char → Int
  | [], [] => 0
  | [], b :: _ => (0 : Int) - b.toNat
  | a :: _, [] => (a.toNat : Int)
  | a :: as, b :: bs =>
    if a = b then (if a = NUL then 0 else FAudio_strcmp as bs)
    else (a.toNat : Int) - b.toNat

/-- The condition of the `if` at XNA_Song.c:216-218:
`namelength >= 4 && (strcmp(name + namelength - 4, ".ogg") == 0 || strcmp(..., ".oga") == 0)`. -/
def usesVorbis (name : List Char) : Bool :=
  let namelength := FAudio_strlen name
  decide (namelength ≥ 4) &&
    (FAudio_strcmp (name.drop (namelength - 4)) ".ogg".toList == 0 ||
     FAudio_strcmp (name.drop (namelength - 4)) ".oga".toList == 0)

/-! ## Data model -/

/-- A C `float`, kept as its IEEE-754 binary32 bit pattern.  The program only stores, passes
on and compares floats with zero; it does no float arithmetic of its own. -/
structure F32 where
  bits : Nat
deriving DecidableEq, Repr

namespace F32

/-- The literal `0.0f`. -/
def zero : F32 := ⟨0⟩

/-- The literal `1.0f`. -/
def one : F32 := ⟨0x3F800000⟩

/-- Exponent all ones and a non-zero mantissa. -/
def isNaN (x : F32) : Bool :=
  (x.bits / 2 ^ 23) % 256 == 255 && x.bits % 2 ^ 23 != 0

/-- The C comparison `x <= 0.0f`: false for NaN, true for both zeros and for every value
with the sign bit set. -/
def leZero (x : F32) : Bool :=
  !x.isNaN && ((x.bits / 2 ^ 31) % 2 == 1 || x.bits % 2 ^ 31 == 0)

end F32

/-- Modelled from the spec: the end-of-stream flag of a buffer descriptor,
`FAUDIO_END_OF_STREAM`, declared in FAudio.h; only its being non-zero matters here. -/
def FAUDIO_END_OF_STREAM : Nat := 0x40

/-- Modelled from the spec: the format tag for 32-bit float samples,
`FAUDIO_FORMAT_IEEE_FLOAT`, declared in FAudio.h; it is only stored in the format. -/
def FAUDIO_FORMAT_IEEE_FLOAT : Nat := 3

/-- The value of `sizeof(float)`. -/
def sizeof_float : Nat := 4

/-- Modelled from the spec: the channel count and sample rate the decoder exposes after
`open`; these are the two fields of `stb_vorbis_info` (declared in stb_vorbis.h) that the
program reads, `unsigned int sample_rate` and `int channels` (a decoder never reports a
negative count, so a natural number). -/
structure stb_vorbis_info where
  sample_rate : Nat
  channels : Nat
deriving DecidableEq, Repr

/-- The block `songCache` points to: `size` bytes obtained from `FAudio_malloc`. -/
structure Cache where
  size : Nat
deriving DecidableEq, Repr

/-- Modelled from the spec: the audio format (channel count, sample rate, bit depth, block
alignment, average bytes per second), the struct `FAudioWaveFormatEx` of FAudio.h;
`nChannels`, `nBlockAlign`, `wFormatTag`, `wBitsPerSample` and `cbSize` are 16-bit fields,
`nSamplesPerSec` and `nAvgBytesPerSec` are 32-bit. -/
structure FAudioWaveFormatEx where
  wFormatTag : Nat
  nChannels : Nat
  nSamplesPerSec : Nat
  nAvgBytesPerSec : Nat
  nBlockAlign : Nat
  wBitsPerSample : Nat
  cbSize : Nat
deriving DecidableEq, Repr

/-- Modelled from the spec: the buffer descriptor, the struct `FAudioBuffer` of FAudio.h,
with the fields `XNA_SongSubmitBuffer` fills in (all of them 32-bit); `pAudioData` is the
block the data pointer refers to (none for NULL), `pContext` is always NULL there. -/
structure FAudioBuffer where
  Flags : Nat
  AudioBytes : Nat
  pAudioData : Option Cache
  PlayBegin : Nat
  PlayLength : Nat
  LoopBegin : Nat
  LoopLength : Nat
  LoopCount : Nat
deriving DecidableEq, Repr

/-- Modelled from the spec: the source voice of the audio engine, which lives outside
XNA_Song.c.  The glossary of the spec describes a voice as accepting queued buffers and
exposing start/stop/volume/queue-state operations; this record is that state.  `gstreamer`
stands for `songVoice->src.gstreamer`, `volume` is the last value handed to
`FAudioVoice_SetVolume`. -/
structure Voice where
  gstreamer : Bool
  format : Option FAudioWaveFormatEx
  volume : F32
  started : Bool
  queue : List FAudioBuffer
deriving DecidableEq, Repr

/-- Modelled from the spec: the state of an open stream decoder, which lives in
stb_vorbis.h, outside XNA_Song.c.  Per the decoder contract of the spec it exposes channel
count and sample rate, keeps a read position, and reports a stream length in seconds.  `total` is the number
of samples per channel in the stream, `pos` how many of them have been handed out. -/
structure stb_vorbis where
  sample_rate : Nat
  channels : Nat
  total : Nat
  pos : Nat
  seconds : F32
deriving DecidableEq, Repr

/-- How a call can leave defined behaviour. -/
inductive Fault where
  | nullDecoder      -- a decoder function other than close was handed a NULL handle
  | nullVoice        -- a voice function was handed a NULL voice
  | nullCache        -- the decoder was told to write samples through a NULL buffer
  | cacheOverrun     -- the decoder wrote more bytes than the buffer holds
  | divideByZero     -- `num_floats / channels` with `channels == 0`
deriving DecidableEq, Repr

/-- Results of fallible calls can be compared. -/
instance instDecidableEqExcept {ε α : Type} [DecidableEq ε] [DecidableEq α] :
    DecidableEq (Except ε α)
  | .ok a, .ok b => if h : a = b then isTrue (by rw [h]) else isFalse (fun e => h (by cases e; rfl))
  | .error a, .error b =>
    if h : a = b then isTrue (by rw [h]) else isFalse (fun e => h (by cases e; rfl))
  | .ok _, .error _ => isFalse (fun e => by cases e)
  | .error _, .ok _ => isFalse (fun e => by cases e)

/-- Calls that leave XNA_Song.c, with the arguments that matter. -/
inductive Call where
  | FAudio_GSTREAMER_free
  | FAudioSourceVoice_Stop
  | FAudioVoice_DestroyVoice
  | FAudio_free
  | stb_vorbis_close
  | stb_vorbis_open_filename (name : List Char)
  | stb_vorbis_get_info
  | FAudio_CreateSourceVoice (format : FAudioWaveFormatEx)
  | FAudio_malloc (size : Nat)
  | stb_vorbis_seek_start
  | stb_vorbis_get_samples_float_interleaved (channels : Nat) (num_floats : Int)
  | FAudioSourceVoice_SubmitSourceBuffer (buffer : FAudioBuffer)
  | stb_vorbis_stream_length_in_seconds
  | FAudio_GSTREAMER_play (name : List Char) (volume : F32)
  | FAudio_assert
  | FAudioVoice_SetVolume (volume : F32)
  | FAudioSourceVoice_Start
  | FAudioSourceVoice_GetState
deriving DecidableEq, Repr

/-- One trace entry: the call, and whether `songVoice`, `songCache` and `activeVorbis` were
non-NULL at the moment it was issued. -/
structure Logged where
  call : Call
  voiceHeld : Bool
  cacheHeld : Bool
  vorbisHeld : Bool
deriving DecidableEq, Repr

/-- The file-scope globals of XNA_Song.c (lines 92-123) plus the trace of outgoing calls,
oldest first.  `songAudio` and `songMaster` are set once by `XNA_SongInit` and only passed
through, so they are not tracked. -/
structure Session where
  songVolume : F32
  songVoice : Option Voice
  activeVorbisInfo : stb_vorbis_info
  activeVorbis : Option stb_vorbis
  songCache : Option Cache
  trace : List Logged
deriving DecidableEq, Repr

/-- The globals as initialised at XNA_Song.c:92-123, before any call. -/
def Session.initial : Session :=
  { songVolume := F32.one, songVoice := none, activeVorbisInfo := ⟨0, 0⟩,
    activeVorbis := none, songCache := none, trace := [] }

/-- Record an outgoing call together with the handles held right now. -/
def Session.call (s : Session) (c : Call) : Session :=
  { s with trace := s.trace ++
      [⟨c, s.songVoice.isSome, s.songCache.isSome, s.activeVorbis.isSome⟩] }

/-- The spec's `Stopped` state: no voice, no backend, no decode cache. -/
def Session.Stopped (s : Session) : Prop :=
  s.songVoice = none ∧ s.activeVorbis = none ∧ s.songCache = none

instance (s : Session) : Decidable s.Stopped := by
  unfold Session.Stopped; infer_instance

/-- Everything outside XNA_Song.c that decides how a call goes: the build switch
`HAVE_GSTREAMER`, which names the decoder can open (and the stream found there), whether
the engine creates a voice, whether the allocator returns a block, and what the media
pipeline reports (its duration and the voice it leaves in `songVoice`). -/
structure World where
  HAVE_GSTREAMER : Bool
  stb_vorbis_open_filename : List Char → Option stb_vorbis
  FAudio_CreateSourceVoice : FAudioWaveFormatEx → Bool
  FAudio_malloc : Nat → Bool
  FAudio_GSTREAMER_play : List Char → F32 → F32 × Option Voice

/-! ## External collaborators -/

/-- Conversion of a 32-bit unsigned value to `int` (two's complement). -/
def toInt32 (x : Nat) : Int :=
  if x % 2 ^ 32 < 2 ^ 31 then ((x % 2 ^ 32 : Nat) : Int) else ((x % 2 ^ 32 : Nat) : Int) - 2 ^ 32

/-- Modelled from the spec: `decode_next` of the decoder contract
(`stb_vorbis_get_samples_float_interleaved`, in stb_vorbis.h).  It hands out up to
`num_floats / channels` samples per channel, fewer when the stream has fewer left and 0 when
it is exhausted, writes `channels` floats per sample through `buffer`, and advances the read
position.  Only `close` is specified as safe without a handle, so a NULL handle is a fault;
so are a division by a zero channel count and a write through NULL or past the block. -/
def stb_vorbis_get_samples_float_interleaved (f : Option stb_vorbis) (channels : Nat)
    (buffer : Option Cache) (num_floats : Int) : Except Fault (Nat × stb_vorbis) :=
  if channels = 0 then .error .divideByZero else
  match f with
  | none => .error .nullDecoder
  | some d =>
    let len := Int.tdiv num_floats (channels : Int)
    let n := min len.toNat (d.total - d.pos)
    if n = 0 then .ok (0, d) else
    match buffer with
    | none => .error .nullCache
    | some c =>
      if c.size < n * channels * sizeof_float then .error .cacheOverrun
      else .ok (n, { d with pos := d.pos + n })

/-- Modelled from the spec: a voice as `FAudio_CreateSourceVoice` hands it out: default
volume, not started, nothing queued. -/
def Voice.fresh (format : FAudioWaveFormatEx) : Voice :=
  { gstreamer := false, format := some format, volume := F32.one, started := false, queue := [] }

/-- Modelled from the spec: the call `FAudioSourceVoice_SubmitSourceBuffer(songVoice,
&buffer, NULL)` of the engine: the buffer joins the queue of the voice; a NULL voice is a
fault. -/
def FAudioSourceVoice_SubmitSourceBuffer (s : Session) (buffer : FAudioBuffer) :
    Except Fault Unit × Session :=
  let s1 := s.call (.FAudioSourceVoice_SubmitSourceBuffer buffer)
  match s1.songVoice with
  | none => (.error .nullVoice, s1)
  | some v => (.ok (), { s1 with songVoice := some { v with queue := v.queue ++ [buffer] } })

/-- Modelled from the spec: the call `FAudioVoice_SetVolume(songVoice, volume, 0)` of the
engine: the voice takes the value handed over; a NULL voice is a fault. -/
def FAudioVoice_SetVolume (s : Session) (volume : F32) : Except Fault Unit × Session :=
  let s1 := s.call (.FAudioVoice_SetVolume volume)
  match s1.songVoice with
  | none => (.error .nullVoice, s1)
  | some v => (.ok (), { s1 with songVoice := some { v with volume := volume } })

/-- Modelled from the spec: the call `FAudioSourceVoice_Start(songVoice, 0, 0)` of the
engine: the voice is started; a NULL voice is a fault. -/
def FAudioSourceVoice_Start (s : Session) : Except Fault Unit × Session :=
  let s1 := s.call .FAudioSourceVoice_Start
  match s1.songVoice with
  | none => (.error .nullVoice, s1)
  | some v => (.ok (), { s1 with songVoice := some { v with started := true } })

/-! ## XNA_Song.c -/

/-- XNA_Song.c:127-156.  `num_floats` is the 32-bit product `sample_rate * channels` handed
to an `int` parameter; `decoded` is the `int` result stored in a `uint32_t`; `AudioBytes` is
a 32-bit field, so the product `decoded * channels * sizeof(float)` is reduced modulo 2^32
when it is stored. -/
def XNA_SongSubmitBuffer (s : Session) : Except Fault Unit × Session :=
  let num_floats := toInt32 (s.activeVorbisInfo.sample_rate * s.activeVorbisInfo.channels)
  let s1 := s.call (.stb_vorbis_get_samples_float_interleaved s.activeVorbisInfo.channels num_floats)
  match stb_vorbis_get_samples_float_interleaved s1.activeVorbis s1.activeVorbisInfo.channels
      s1.songCache num_floats with
  | .error e => (.error e, s1)
  | .ok (n, d) =>
    let decoded := n % 2 ^ 32
    let s2 := { s1 with activeVorbis := some d }
    if decoded = 0 then (.ok (), s2) else
    let buffer : FAudioBuffer :=
      { Flags := if decoded < s2.activeVorbisInfo.sample_rate then FAUDIO_END_OF_STREAM else 0
        AudioBytes := (decoded * s2.activeVorbisInfo.channels * sizeof_float) % 2 ^ 32
        pAudioData := s2.songCache
        PlayBegin := 0
        PlayLength := decoded
        LoopBegin := 0
        LoopLength := 0
        LoopCount := 0 }
    FAudioSourceVoice_SubmitSourceBuffer s2 buffer

/-- XNA_Song.c:160-171, the first `if` of `XNA_SongKill`: free the pipeline side of the
voice when there is one, stop the voice, destroy it, then clear `songVoice`. -/
def XNA_SongKill_voice (w : World) (s : Session) : Session :=
  match s.songVoice with
  | some v =>
    let sa := if w.HAVE_GSTREAMER && v.gstreamer then s.call .FAudio_GSTREAMER_free else s
    let sb := { sa.call .FAudioSourceVoice_Stop with songVoice := some { v with started := false } }
    let sc := sb.call .FAudioVoice_DestroyVoice
    { sc with songVoice := none }
  | none => s

/-- XNA_Song.c:172-176, the second `if`: free the cache, then clear `songCache`. -/
def XNA_SongKill_cache (s : Session) : Session :=
  match s.songCache with
  | some _ => { s.call .FAudio_free with songCache := none }
  | none => s

/-- XNA_Song.c:177-181, the third `if`: close the decoder, then clear `activeVorbis`. -/
def XNA_SongKill_vorbis (s : Session) : Session :=
  match s.activeVorbis with
  | some _ => { s.call .stb_vorbis_close with activeVorbis := none }
  | none => s

/-- XNA_Song.c:158-182. -/
def XNA_SongKill (w : World) (s : Session) : Session :=
  XNA_SongKill_vorbis (XNA_SongKill_cache (XNA_SongKill_voice w s))

/-- The format set up at XNA_Song.c:224-230 from the decoder's info, each field reduced to
its width. -/
def waveFormat (info : stb_vorbis_info) : FAudioWaveFormatEx :=
  let nChannels := info.channels % 2 ^ 16
  let nSamplesPerSec := info.sample_rate % 2 ^ 32
  let wBitsPerSample := (sizeof_float * 8) % 2 ^ 16
  let nBlockAlign := (nChannels * wBitsPerSample / 8) % 2 ^ 16
  { wFormatTag := FAUDIO_FORMAT_IEEE_FLOAT
    nChannels := nChannels
    nSamplesPerSec := nSamplesPerSec
    wBitsPerSample := wBitsPerSample
    nBlockAlign := nBlockAlign
    nAvgBytesPerSec := (nSamplesPerSec * nBlockAlign) % 2 ^ 32
    cbSize := 0 }

/-- XNA_Song.c:271-273: set the volume, start the voice, return the duration. -/
def XNA_PlaySong_start (s : Session) (duration : F32) : Except Fault F32 × Session :=
  match FAudioVoice_SetVolume s s.songVolume with
  | (.error e, s1) => (.error e, s1)
  | (.ok _, s1) =>
    match FAudioSourceVoice_Start s1 with
    | (.error e, s2) => (.error e, s2)
    | (.ok _, s2) => (.ok duration, s2)

/-- XNA_Song.c:223-250 once `stb_vorbis_get_info` has read the open decoder `f`: store the
stream info, fill in the format, create the voice (on failure `songVoice` keeps its value),
allocate the decode cache, rewind the decoder.  Lines 233-234 register
`XNA_SongSubmitBuffer` as the `OnBufferEnd` callback of the voice; a later callback of the
engine is an application of `XNA_SongSubmitBuffer` to the session. -/
def XNA_PlaySong_setup (w : World) (f : stb_vorbis) (s2 : Session) : Session :=
  let s3 := { s2 with activeVorbisInfo := ⟨f.sample_rate, f.channels⟩ }
  let format := waveFormat s3.activeVorbisInfo
  let s4 := s3.call (.FAudio_CreateSourceVoice format)
  let s5 := { s4 with songVoice := if w.FAudio_CreateSourceVoice format
                                   then some (Voice.fresh format) else s4.songVoice }
  let s6 := { s5.call (.FAudio_malloc format.nAvgBytesPerSec) with
              songCache := if w.FAudio_malloc format.nAvgBytesPerSec
                           then some ⟨format.nAvgBytesPerSec⟩ else none }
  { s6.call .stb_vorbis_seek_start with activeVorbis := some { f with pos := 0 } }

/-- XNA_Song.c:223-254 and 271-273, the rest of the `.ogg`/`.oga` branch once
`stb_vorbis_get_info` has read the open decoder `f`: set up format, voice and cache, prime
one buffer, ask for the stream length, then set the volume and start the voice. -/
def XNA_PlaySong_vorbis (w : World) (f : stb_vorbis) (s2 : Session) :
    Except Fault F32 × Session :=
  match XNA_SongSubmitBuffer (XNA_PlaySong_setup w f s2) with
  | (.error e, s8) => (.error e, s8)
  | (.ok _, s8) =>
    let s9 := s8.call .stb_vorbis_stream_length_in_seconds
    match s9.activeVorbis with
    | none => (.error .nullDecoder, s9)
    | some g => XNA_PlaySong_start s9 g.seconds

/-- XNA_Song.c:207-274.  `FAudio_assert` (declared in FAudio_internal.h) is a debug-time
assertion: it is recorded in the trace and execution goes on to `return 0.0f`. -/
def XNA_PlaySong (w : World) (name : List Char) (s : Session) : Except Fault F32 × Session :=
  let s0 := XNA_SongKill w s
  if usesVorbis name then
    let s1 := { s0.call (.stb_vorbis_open_filename name) with
                activeVorbis := w.stb_vorbis_open_filename name }
    let s2 := s1.call .stb_vorbis_get_info
    match s2.activeVorbis with
    | none => (.error .nullDecoder, s2)
    | some f => XNA_PlaySong_vorbis w f s2
  else
    let s1 := { s0 with activeVorbis := none }
    if w.HAVE_GSTREAMER then
      let s2 := { s1.call (.FAudio_GSTREAMER_play name s1.songVolume) with
                  songVoice := (w.FAudio_GSTREAMER_play name s1.songVolume).2 }
      let duration := (w.FAudio_GSTREAMER_play name s1.songVolume).1
      if duration.leZero || s2.songVoice.isNone then (.ok F32.zero, s2)
      else XNA_PlaySong_start s2 duration
    else
      (.ok F32.zero, s1.call .FAudio_assert)

/-- XNA_Song.c:276-283. -/
def XNA_PauseSong (s : Session) : Session :=
  match s.songVoice with
  | none => s
  | some v => { s.call .FAudioSourceVoice_Stop with songVoice := some { v with started := false } }

/-- XNA_Song.c:285-292. -/
def XNA_ResumeSong (s : Session) : Session :=
  match s.songVoice with
  | none => s
  | some v => { s.call .FAudioSourceVoice_Start with songVoice := some { v with started := true } }

/-- XNA_Song.c:294-297. -/
def XNA_StopSong (w : World) (s : Session) : Session :=
  XNA_SongKill w s

/-- XNA_Song.c:299-306. -/
def XNA_SetSongVolume (volume : F32) (s : Session) : Session :=
  let s1 := { s with songVolume := volume }
  match s1.songVoice with
  | some _ => (FAudioVoice_SetVolume s1 s1.songVolume).2
  | none => s1

/-- XNA_Song.c:308-318; the result is the `uint32_t` returned (1 for ended, 0 otherwise). -/
def XNA_GetSongEnded (s : Session) : Nat × Session :=
  match s.songVoice with
  | none => (1, s)
  | some v => (if v.queue.length = 0 then 1 else 0, s.call .FAudioSourceVoice_GetState)

/-! ## Traces -/

/-- The calls of the trace, without the snapshots. -/
def Session.calls (s : Session) : List Call :=
  s.trace.map Logged.call

/-- Calls made to the stream decoder. -/
def Call.isDecoder : Call → Bool
  | .stb_vorbis_close => true
  | .stb_vorbis_open_filename _ => true
  | .stb_vorbis_get_info => true
  | .stb_vorbis_seek_start => true
  | .stb_vorbis_get_samples_float_interleaved _ _ => true
  | .stb_vorbis_stream_length_in_seconds => true
  | _ => false

/-- Calls that only the `else` branch of `XNA_PlaySong` makes. -/
def Call.isPipeline : Call → Bool
  | .FAudio_GSTREAMER_play _ _ => true
  | .FAudio_assert => true
  | _ => false

/-- The trace of `t` is the trace of `s` followed by calls that all satisfy `P`. -/
def Grows (P : Call → Bool) (s t : Session) : Prop :=
  ∃ r, t.calls = s.calls ++ r ∧ ∀ c ∈ r, P c = true

/-- A call of the refill: the decoder read or the buffer submission. -/
def Call.isRefill : Call → Bool
  | .stb_vorbis_get_samples_float_interleaved _ _ => true
  | .FAudioSourceVoice_SubmitSourceBuffer _ => true
  | _ => false

/-- A call of the tail of `XNA_PlaySong`: set the volume or start the voice. -/
def Call.isStart : Call → Bool
  | .FAudioVoice_SetVolume _ => true
  | .FAudioSourceVoice_Start => true
  | _ => false

/-! ## Concrete streams, worlds and sessions -/

/-- A two-second stereo stream at 44100 Hz: 88200 samples per channel; its length in
seconds is 2.0f, bit pattern 0x40000000.  The read position is left where the probing reads
of `open` put it. -/
def twoSecondStream : stb_vorbis :=
  { sample_rate := 44100, channels := 2, total := 88200, pos := 1024, seconds := ⟨0x40000000⟩ }

/-- A stream with valid headers and no audio: zero samples, length 0.0f. -/
def emptyStream : stb_vorbis :=
  { sample_rate := 44100, channels := 2, total := 0, pos := 0, seconds := F32.zero }

/-- A mono stream whose header declares 2^30 + 1 Hz, holding ten samples. -/
def hugeRateStream : stb_vorbis :=
  { sample_rate := 2 ^ 30 + 1, channels := 1, total := 10, pos := 0, seconds := ⟨0x322BCC77⟩ }

/-- A voice as the media pipeline hands it out. -/
def pipelineVoice : Voice :=
  { gstreamer := true, format := none, volume := F32.one, started := true, queue := [] }

/-- A build without the media pipeline, in which the decoder finds three files, the engine
creates voices and the allocator returns blocks. -/
def vorbisWorld : World :=
  { HAVE_GSTREAMER := false
    stb_vorbis_open_filename := fun name =>
      if name = "track.ogg".toList then some twoSecondStream
      else if name = "empty.ogg".toList then some emptyStream
      else if name = "huge.ogg".toList then some hugeRateStream
      else none
    FAudio_CreateSourceVoice := fun _ => true
    FAudio_malloc := fun _ => true
    FAudio_GSTREAMER_play := fun _ _ => (F32.zero, none) }

/-- A build with the media pipeline: it plays "song.mp3" (180.0f seconds), reports a zero
duration for "live.mp3" although it has produced a voice, and fails on anything else. -/
def pipelineWorld : World :=
  { HAVE_GSTREAMER := true
    stb_vorbis_open_filename := fun name =>
      if name = "track.ogg".toList then some twoSecondStream else none
    FAudio_CreateSourceVoice := fun _ => true
    FAudio_malloc := fun _ => true
    FAudio_GSTREAMER_play := fun name _ =>
      if name = "song.mp3".toList then (⟨0x43340000⟩, some pipelineVoice)
      else if name = "live.mp3".toList then (F32.zero, some pipelineVoice)
      else (F32.zero, none) }

/-- A session in the middle of playing a decoded song. -/
def playingSession : Session :=
  { songVolume := F32.one
    songVoice := some { Voice.fresh (waveFormat ⟨44100, 2⟩) with started := true }
    activeVorbisInfo := ⟨44100, 2⟩
    activeVorbis := some { twoSecondStream with pos := 44100 }
    songCache := some ⟨352800⟩
    trace := [] }

/-- The session `playingSession` with the decoder rewound, as it is right before the priming
refill. -/
def rewoundSession : Session :=
  { playingSession with activeVorbis := some { twoSecondStream with pos := 0 } }

/-! ## Quantities used in the statements -/

/-- Samples per channel one refill asks the decoder for: `num_floats / channels`, with
`num_floats` the 32-bit product `sample_rate * channels` read as an `int`. -/
def requestLen (info : stb_vorbis_info) : Nat :=
  (Int.tdiv (toInt32 (info.sample_rate * info.channels)) (info.channels : Int)).toNat

/-- The first `k` refills of a song, one after the other: the priming refill of
`XNA_PlaySong` and then one per buffer-end callback of the engine.  A fault ends the
sequence. -/
def refills : Nat → Session → Except Fault Unit × Session
  | 0, s => (.ok (), s)
  | k + 1, s =>
    match XNA_SongSubmitBuffer s with
    | (.error e, t) => (.error e, t)
    | (.ok _, t) => refills k t

/-- The buffer `XNA_SongSubmitBuffer` fills in for `decoded` samples per channel. -/
def refillBuffer (info : stb_vorbis_info) (cache : Option Cache) (decoded : Nat) : FAudioBuffer :=
  { Flags := if decoded < info.sample_rate then FAUDIO_END_OF_STREAM else 0
    AudioBytes := decoded * info.channels * 4
    pAudioData := cache
    PlayBegin := 0
    PlayLength := decoded
    LoopBegin := 0
    LoopLength := 0
    LoopCount := 0 }

/-- A destroy, free or close call that was issued while the session still held the handle
it releases. -/
def Logged.releasesHeldHandle (e : Logged) : Bool :=
  match e.call with
  | .FAudioVoice_DestroyVoice => e.voiceHeld
  | .FAudio_free => e.cacheHeld
  | .stb_vorbis_close => e.vorbisHeld
  | _ => false

/-! ## C strings: lemmas -/

theorem strlen_eq_length_cstr (name : List Char) :
    FAudio_strlen name = (cstr name).length := by
  induction name with
  | nil => rfl
  | cons c cs ih =>
    by_cases h : c = NUL <;> simp [FAudio_strlen, cstr, h, ih]

theorem char_eq_of_toNat_eq {a b : Char} (h : a.toNat = b.toNat) : a = b := by
  rw [← Char.ofNat_toNat a, ← Char.ofNat_toNat b, h]

theorem char_toNat_eq_zero {a : Char} : a.toNat = 0 ↔ a = NUL := by
  constructor
  · intro h
    exact char_eq_of_toNat_eq (by simpa [NUL] using h)
  · intro h
    subst h
    decide

theorem strcmp_eq_zero_iff (a b : List Char) :
    FAudio_strcmp a b = 0 ↔ cstr a = cstr b := by
  induction a generalizing b with
  | nil =>
    cases b with
    | nil => simp [FAudio_strcmp, cstr]
    | cons y ys =>
      by_cases hy : y = NUL
      · simp [FAudio_strcmp, cstr, hy, char_toNat_eq_zero.mpr rfl]
      · have : y.toNat ≠ 0 := fun h => hy (char_toNat_eq_zero.mp h)
        simp [FAudio_strcmp, cstr, hy]
        omega
  | cons x xs ih =>
    cases b with
    | nil =>
      by_cases hx : x = NUL
      · simp [FAudio_strcmp, cstr, hx, char_toNat_eq_zero.mpr rfl]
      · have : x.toNat ≠ 0 := fun h => hx (char_toNat_eq_zero.mp h)
        simp [FAudio_strcmp, cstr, hx]
        omega
    | cons y ys =>
      by_cases hxy : x = y
      · subst hxy
        by_cases hx : x = NUL
        · simp [FAudio_strcmp, cstr, hx]
        · simp [FAudio_strcmp, cstr, hx, ih]
      · have hne : x.toNat ≠ y.toNat := fun h => hxy (char_eq_of_toNat_eq h)
        have hsub : ¬ ((x.toNat : Int) - y.toNat = 0) := by omega
        have hl : FAudio_strcmp (x :: xs) (y :: ys) ≠ 0 := by
          simpa [FAudio_strcmp, hxy] using hsub
        have hr : cstr (x :: xs) ≠ cstr (y :: ys) := by
          by_cases hx : x = NUL <;> by_cases hy : y = NUL
          · exact absurd (hx.trans hy.symm) hxy
          · simp [cstr, hx, hy]
          · simp [cstr, hx, hy]
          · simp [cstr, hx, hy, hxy]
        exact ⟨fun h => absurd h hl, fun h => absurd h hr⟩

theorem cstr_drop (name : List Char) (k : Nat) (h : k ≤ (cstr name).length) :
    cstr (name.drop k) = (cstr name).drop k := by
  induction name generalizing k with
  | nil => simp [cstr]
  | cons c cs ih =>
    cases k with
    | zero => simp
    | succ k =>
      by_cases hc : c = NUL
      · simp [cstr, hc] at h
      · simp [cstr, hc] at h ⊢
        exact ih k h

/-- The branch condition of `XNA_PlaySong`, read off the characters of the name. -/
theorem usesVorbis_iff (name : List Char) :
    usesVorbis name = true ↔
      4 ≤ (cstr name).length ∧
        ((cstr name).drop ((cstr name).length - 4) = ".ogg".toList ∨
         (cstr name).drop ((cstr name).length - 4) = ".oga".toList) := by
  have hogg : cstr ".ogg".toList = ".ogg".toList := by decide
  have hoga : cstr ".oga".toList = ".oga".toList := by decide
  have hd := cstr_drop name ((cstr name).length - 4) (Nat.sub_le _ _)
  simp only [usesVorbis, strlen_eq_length_cstr, Bool.and_eq_true, Bool.or_eq_true,
    decide_eq_true_eq, beq_iff_eq, strcmp_eq_zero_iff, hd, hogg, hoga, ge_iff_le]

/-! ## Traces: lemmas -/

@[simp] theorem calls_call (s : Session) (c : Call) : (s.call c).calls = s.calls ++ [c] := by
  simp [Session.calls, Session.call]

theorem kill_voice_fields (w : World) (s : Session) :
    (XNA_SongKill_voice w s).songVoice = none ∧
    (XNA_SongKill_voice w s).songCache = s.songCache ∧
    (XNA_SongKill_voice w s).activeVorbis = s.activeVorbis ∧
    (XNA_SongKill_voice w s).songVolume = s.songVolume ∧
    (XNA_SongKill_voice w s).activeVorbisInfo = s.activeVorbisInfo := by
  obtain ⟨vol, voice, info, vorbis, cache, tr⟩ := s
  cases voice with
  | none => simp [XNA_SongKill_voice]
  | some v =>
    by_cases h : (w.HAVE_GSTREAMER && v.gstreamer) = true <;>
      simp only [XNA_SongKill_voice, h, if_true, if_false, Session.call] <;> simp

theorem kill_cache_fields (s : Session) :
    (XNA_SongKill_cache s).songVoice = s.songVoice ∧
    (XNA_SongKill_cache s).songCache = none ∧
    (XNA_SongKill_cache s).activeVorbis = s.activeVorbis ∧
    (XNA_SongKill_cache s).songVolume = s.songVolume ∧
    (XNA_SongKill_cache s).activeVorbisInfo = s.activeVorbisInfo := by
  obtain ⟨vol, voice, info, vorbis, cache, tr⟩ := s
  cases cache <;> simp [XNA_SongKill_cache, Session.call]

theorem kill_vorbis_fields (s : Session) :
    (XNA_SongKill_vorbis s).songVoice = s.songVoice ∧
    (XNA_SongKill_vorbis s).songCache = s.songCache ∧
    (XNA_SongKill_vorbis s).activeVorbis = none ∧
    (XNA_SongKill_vorbis s).songVolume = s.songVolume ∧
    (XNA_SongKill_vorbis s).activeVorbisInfo = s.activeVorbisInfo := by
  obtain ⟨vol, voice, info, vorbis, cache, tr⟩ := s
  cases vorbis <;> simp [XNA_SongKill_vorbis, Session.call]

/-- After `XNA_SongKill` the three handles are NULL; volume and stream info are untouched. -/
theorem kill_fields (w : World) (s : Session) :
    (XNA_SongKill w s).songVoice = none ∧
    (XNA_SongKill w s).songCache = none ∧
    (XNA_SongKill w s).activeVorbis = none ∧
    (XNA_SongKill w s).songVolume = s.songVolume ∧
    (XNA_SongKill w s).activeVorbisInfo = s.activeVorbisInfo := by
  have h1 := kill_voice_fields w s
  have h2 := kill_cache_fields (XNA_SongKill_voice w s)
  have h3 := kill_vorbis_fields (XNA_SongKill_cache (XNA_SongKill_voice w s))
  unfold XNA_SongKill
  refine ⟨?_, ?_, ?_, ?_, ?_⟩
  · rw [h3.1, h2.1, h1.1]
  · rw [h3.2.1, h2.2.1]
  · exact h3.2.2.1
  · rw [h3.2.2.2.1, h2.2.2.2.1, h1.2.2.2.1]
  · rw [h3.2.2.2.2, h2.2.2.2.2, h1.2.2.2.2]

theorem kill_stopped (w : World) (s : Session) : (XNA_SongKill w s).Stopped :=
  ⟨(kill_fields w s).1, (kill_fields w s).2.2.1, (kill_fields w s).2.1⟩

/-- On a session without voice, cache and decoder `XNA_SongKill` does nothing at all. -/
theorem kill_of_stopped (w : World) (s : Session) (h : s.Stopped) : XNA_SongKill w s = s := by
  obtain ⟨vol, voice, info, vorbis, cache, tr⟩ := s
  obtain ⟨h1, h2, h3⟩ := h
  simp only at h1 h2 h3
  subst h1 h2 h3
  rfl

theorem Grows.refl (P : Call → Bool) (s : Session) : Grows P s s :=
  ⟨[], by simp, by simp⟩

theorem Grows.trans {P : Call → Bool} {s t u : Session} (h1 : Grows P s t) (h2 : Grows P t u) :
    Grows P s u := by
  obtain ⟨r1, e1, p1⟩ := h1
  obtain ⟨r2, e2, p2⟩ := h2
  refine ⟨r1 ++ r2, by rw [e2, e1, List.append_assoc], ?_⟩
  intro c hc
  rcases List.mem_append.mp hc with h | h
  · exact p1 c h
  · exact p2 c h

theorem Grows.of_calls {P : Call → Bool} {s t : Session} (h : t.calls = s.calls) : Grows P s t :=
  ⟨[], by simp [h], by simp⟩

theorem Grows.call {P : Call → Bool} (s : Session) (c : Call) (h : P c = true) :
    Grows P s (s.call c) :=
  ⟨[c], by simp, by simpa using h⟩

theorem submitSourceBuffer_grows {P : Call → Bool} (s : Session) (b : FAudioBuffer)
    (h : P (.FAudioSourceVoice_SubmitSourceBuffer b) = true) :
    Grows P s (FAudioSourceVoice_SubmitSourceBuffer s b).2 := by
  obtain ⟨vol, voice, info, vorbis, cache, tr⟩ := s
  cases voice <;>
    exact ⟨[.FAudioSourceVoice_SubmitSourceBuffer b],
      by simp [FAudioSourceVoice_SubmitSourceBuffer, Session.calls, Session.call],
      by simpa using h⟩

theorem setVolume_grows {P : Call → Bool} (s : Session) (v : F32)
    (h : P (.FAudioVoice_SetVolume v) = true) :
    Grows P s (FAudioVoice_SetVolume s v).2 := by
  obtain ⟨vol, voice, info, vorbis, cache, tr⟩ := s
  cases voice <;>
    exact ⟨[.FAudioVoice_SetVolume v],
      by simp [FAudioVoice_SetVolume, Session.calls, Session.call], by simpa using h⟩

theorem start_grows {P : Call → Bool} (s : Session)
    (h : P .FAudioSourceVoice_Start = true) :
    Grows P s (FAudioSourceVoice_Start s).2 := by
  obtain ⟨vol, voice, info, vorbis, cache, tr⟩ := s
  cases voice <;>
    exact ⟨[.FAudioSourceVoice_Start],
      by simp [FAudioSourceVoice_Start, Session.calls, Session.call], by simpa using h⟩

theorem songSubmitBuffer_grows {P : Call → Bool} (s : Session)
    (h : ∀ c, c.isRefill = true → P c = true) :
    Grows P s (XNA_SongSubmitBuffer s).2 := by
  have hd : ∀ (t : Session) (a : Nat) (b : Int),
      Grows P t (t.call (.stb_vorbis_get_samples_float_interleaved a b)) :=
    fun t a b => Grows.call t _ (h _ rfl)
  unfold XNA_SongSubmitBuffer
  simp only []
  split
  · exact hd _ _ _
  · split
    · exact (hd _ _ _).trans (Grows.of_calls rfl)
    · exact (hd _ _ _).trans
        (Grows.trans (Grows.of_calls rfl) (submitSourceBuffer_grows _ _ (h _ rfl)))

theorem playSong_start_grows {P : Call → Bool} (s : Session) (d : F32)
    (h : ∀ c, c.isStart = true → P c = true) :
    Grows P s (XNA_PlaySong_start s d).2 := by
  unfold XNA_PlaySong_start
  have h1 := setVolume_grows (P := P) s s.songVolume (h _ rfl)
  generalize FAudioVoice_SetVolume s s.songVolume = r at h1 ⊢
  obtain ⟨r1, s1⟩ := r
  cases r1 with
  | error e => exact h1
  | ok u =>
    have h2 := start_grows (P := P) s1 (h _ rfl)
    simp only at h1 ⊢
    generalize FAudioSourceVoice_Start s1 = r at h2 ⊢
    obtain ⟨r2, s2⟩ := r
    cases r2 with
    | error e => exact h1.trans h2
    | ok u => exact h1.trans h2

theorem playSong_setup_grows {P : Call → Bool} (w : World) (f : stb_vorbis) (s : Session)
    (hP : ∀ c, c.isPipeline = false → P c = true) :
    Grows P s (XNA_PlaySong_setup w f s) := by
  refine ⟨[.FAudio_CreateSourceVoice (waveFormat ⟨f.sample_rate, f.channels⟩),
    .FAudio_malloc (waveFormat ⟨f.sample_rate, f.channels⟩).nAvgBytesPerSec,
    .stb_vorbis_seek_start], ?_, ?_⟩
  · simp [XNA_PlaySong_setup, Session.calls, Session.call]
  · intro c hc
    simp only [List.mem_cons, List.mem_singleton, List.not_mem_nil, or_false] at hc
    rcases hc with rfl | rfl | rfl <;> exact hP _ rfl

theorem playSong_vorbis_grows {P : Call → Bool} (w : World) (f : stb_vorbis) (s : Session)
    (hP : ∀ c, c.isPipeline = false → P c = true) :
    Grows P s (XNA_PlaySong_vorbis w f s).2 := by
  have h0 := playSong_setup_grows (P := P) w f s hP
  have h1 := songSubmitBuffer_grows (P := P) (XNA_PlaySong_setup w f s)
    (fun c hc => hP c (by cases c <;> simp_all [Call.isRefill, Call.isPipeline]))
  have h01 := h0.trans h1
  unfold XNA_PlaySong_vorbis
  generalize XNA_SongSubmitBuffer _ = r at h01 ⊢
  obtain ⟨r1, s8⟩ := r
  have hlen : Grows P s8 (s8.call .stb_vorbis_stream_length_in_seconds) :=
    Grows.call _ _ (hP _ rfl)
  cases r1 with
  | error e => exact h01
  | ok u =>
    simp only
    split
    · exact h01.trans hlen
    · exact (h01.trans hlen).trans
        (playSong_start_grows _ _
          (fun c hc => hP c (by cases c <;> simp_all [Call.isStart, Call.isPipeline])))

/-- In the `.ogg`/`.oga` branch the first call after the teardown opens the decoder on the
name, and none of the later calls belongs to the other branch. -/
theorem playSong_calls_vorbis (w : World) (name : List Char) (s : Session)
    (h : usesVorbis name = true) :
    ∃ rest, (XNA_PlaySong w name s).2.calls =
        (XNA_SongKill w s).calls ++ .stb_vorbis_open_filename name :: rest ∧
      ∀ c ∈ rest, c.isPipeline = false := by
  have key : Grows (fun c => !c.isPipeline)
      ((XNA_SongKill w s).call (.stb_vorbis_open_filename name)) (XNA_PlaySong w name s).2 := by
    unfold XNA_PlaySong
    simp only [h, if_true]
    generalize XNA_SongKill w s = s0
    generalize hs1 : ({ s0.call (.stb_vorbis_open_filename name) with
      activeVorbis := w.stb_vorbis_open_filename name } : Session) = s1
    have e1 : Grows (fun c => !c.isPipeline) (s0.call (.stb_vorbis_open_filename name)) s1 :=
      Grows.of_calls (by rw [← hs1]; rfl)
    have e2 : Grows (fun c => !c.isPipeline) s1 (s1.call .stb_vorbis_get_info) :=
      Grows.call _ _ rfl
    split
    · exact e1.trans e2
    · exact (e1.trans e2).trans (playSong_vorbis_grows w _ _ (fun c hc => by simp [hc]))
  obtain ⟨r, hr, hp⟩ := key
  refine ⟨r, by simp [hr], ?_⟩
  intro c hc
  simpa using hp c hc

theorem playSong_start_calls (s : Session) (d : F32) (pre : List Call) (c : Call)
    (h : s.calls = pre ++ [c]) :
    ∃ rest, (XNA_PlaySong_start s d).2.calls = pre ++ c :: rest ∧
      ∀ x ∈ rest, x.isDecoder = false := by
  obtain ⟨r, hr, hp⟩ := playSong_start_grows (P := fun c => !c.isDecoder) s d
    (fun c hc => by cases c <;> simp_all [Call.isStart, Call.isDecoder])
  refine ⟨r, by rw [hr, h]; simp, ?_⟩
  intro x hx
  simpa using hp x hx

/-- In the other branch the first call after the teardown is the pipeline's play (or, in a
build without the pipeline, the assertion), and no later call goes to the decoder. -/
theorem playSong_calls_other (w : World) (name : List Char) (s : Session)
    (h : usesVorbis name = false) :
    ∃ rest, (XNA_PlaySong w name s).2.calls =
        (XNA_SongKill w s).calls ++
          (if w.HAVE_GSTREAMER then Call.FAudio_GSTREAMER_play name s.songVolume
            else Call.FAudio_assert) :: rest ∧
      ∀ c ∈ rest, c.isDecoder = false := by
  unfold XNA_PlaySong
  simp only [h, Bool.false_eq_true, if_false]
  have hv := (kill_fields w s).2.2.2.1
  generalize XNA_SongKill w s = s0 at hv ⊢
  obtain ⟨vol, voice, info, vorbis, cache, tr⟩ := s0
  simp only at hv
  subst hv
  cases hg : w.HAVE_GSTREAMER with
  | false => exact ⟨[], by simp [Session.calls, Session.call], by simp⟩
  | true =>
    simp only [if_true]
    split
    · exact ⟨[], by simp [Session.calls, Session.call], by simp⟩
    · exact playSong_start_calls _ _ _ _ (by simp [Session.calls, Session.call])

/-! ## The refill -/

theorem toInt32_of_lt (x : Nat) (h : x < 2 ^ 31) : toInt32 x = (x : Int) := by
  have h1 : x % 2 ^ 32 = x := Nat.mod_eq_of_lt (by omega)
  simp only [toInt32, h1]
  rw [if_pos h]

theorem toInt32_toNat_le (x : Nat) : (toInt32 x).toNat ≤ x ∧ (toInt32 x).toNat < 2 ^ 31 := by
  have hm : x % 2 ^ 32 ≤ x := Nat.mod_le _ _
  unfold toInt32
  split
  · rename_i h
    rw [Int.toNat_natCast]
    exact ⟨hm, h⟩
  · have hlt : x % 2 ^ 32 < 2 ^ 32 := Nat.mod_lt _ (by norm_num)
    have : (((x % 2 ^ 32 : Nat) : Int) - 2 ^ 32).toNat = 0 :=
      Int.toNat_eq_zero.mpr (by omega)
    rw [this]
    exact ⟨Nat.zero_le _, by norm_num⟩

theorem tdiv_toNat (a : Int) (C : Nat) : (a.tdiv (C : Int)).toNat = a.toNat / C := by
  cases a with
  | ofNat m =>
    show (Int.tdiv (m : Int) (C : Int)).toNat = _
    rw [← Int.ofNat_tdiv]
    exact Int.toNat_natCast _
  | negSucc m =>
    cases C with
    | zero => simp [Int.tdiv]
    | succ k =>
      have h1 : (Int.negSucc m).tdiv ((k + 1 : Nat) : Int) =
          -(((m + 1) / (k + 1) : Nat) : Int) := rfl
      have h2 : (Int.negSucc m).toNat = 0 := rfl
      rw [h1, h2, Nat.zero_div]
      exact Int.toNat_eq_zero.mpr (Int.neg_nonpos_of_nonneg (Int.ofNat_nonneg _))

/-- A refill never asks for more than `sample_rate` samples per channel, and the count
fits an `int`. -/
theorem requestLen_le (info : stb_vorbis_info) (hch : 0 < info.channels) :
    requestLen info ≤ info.sample_rate ∧ requestLen info < 2 ^ 31 := by
  obtain ⟨h1, h2⟩ := toInt32_toNat_le (info.sample_rate * info.channels)
  unfold requestLen
  rw [tdiv_toNat]
  constructor
  · calc (toInt32 (info.sample_rate * info.channels)).toNat / info.channels
        ≤ info.sample_rate * info.channels / info.channels := Nat.div_le_div_right h1
      _ = info.sample_rate := Nat.mul_div_cancel _ hch
  · exact Nat.lt_of_le_of_lt (Nat.div_le_self _ _) h2

theorem requestLen_eq (info : stb_vorbis_info) (hch : 0 < info.channels)
    (h : info.sample_rate * info.channels < 2 ^ 31) :
    requestLen info = info.sample_rate := by
  unfold requestLen
  rw [tdiv_toNat, toInt32_of_lt _ h, Int.toNat_natCast, Nat.mul_div_cancel _ hch]

/-- What one refill does on a session with a live voice, decoder and cache, when the format
has at least one channel and the samples handed out fit the cache. -/
theorem songSubmitBuffer_gen (s : Session) (v : Voice) (f : stb_vorbis) (c : Cache)
    (hv : s.songVoice = some v) (hf : s.activeVorbis = some f) (hc : s.songCache = some c)
    (hch : 0 < s.activeVorbisInfo.channels)
    (hfit : min (requestLen s.activeVorbisInfo) (f.total - f.pos) *
      s.activeVorbisInfo.channels * 4 ≤ c.size)
    (hsz : c.size < 2 ^ 32) :
    (XNA_SongSubmitBuffer s).1 = .ok () ∧
    (XNA_SongSubmitBuffer s).2.songVoice =
      some { v with queue := v.queue ++
        (if min (requestLen s.activeVorbisInfo) (f.total - f.pos) = 0 then []
         else [refillBuffer s.activeVorbisInfo (some c)
                (min (requestLen s.activeVorbisInfo) (f.total - f.pos))]) } ∧
    (XNA_SongSubmitBuffer s).2.activeVorbis =
      some { f with pos := f.pos + min (requestLen s.activeVorbisInfo) (f.total - f.pos) } ∧
    (XNA_SongSubmitBuffer s).2.songCache = some c ∧
    (XNA_SongSubmitBuffer s).2.songVolume = s.songVolume ∧
    (XNA_SongSubmitBuffer s).2.activeVorbisInfo = s.activeVorbisInfo ∧
    (XNA_SongSubmitBuffer s).2.calls = s.calls ++
      (.stb_vorbis_get_samples_float_interleaved s.activeVorbisInfo.channels
          (toInt32 (s.activeVorbisInfo.sample_rate * s.activeVorbisInfo.channels)) ::
        (if min (requestLen s.activeVorbisInfo) (f.total - f.pos) = 0 then []
         else [.FAudioSourceVoice_SubmitSourceBuffer
                (refillBuffer s.activeVorbisInfo (some c)
                  (min (requestLen s.activeVorbisInfo) (f.total - f.pos)))])) := by
  obtain ⟨hle, hlt⟩ := requestLen_le s.activeVorbisInfo hch
  obtain ⟨vol, voice, ⟨R, C⟩, vorbis, cache, tr⟩ := s
  simp only at hv hf hc hch hfit hle hlt ⊢
  subst hv hf hc
  have hlen : ((toInt32 (R * C)).tdiv (C : Int)).toNat = requestLen ⟨R, C⟩ := rfl
  generalize requestLen ⟨R, C⟩ = L at hlen hfit hle hlt ⊢
  have hCne : C ≠ 0 := by omega
  generalize hn : min L (f.total - f.pos) = n at hfit ⊢
  have hnL : n ≤ L := by rw [← hn]; exact Nat.min_le_left _ _
  have hmod : n % 4294967296 = n := Nat.mod_eq_of_lt (by omega)
  have hbytes : n * C * 4 % 4294967296 = n * C * 4 := Nat.mod_eq_of_lt (by omega)
  by_cases h0 : n = 0
  · simp [XNA_SongSubmitBuffer, stb_vorbis_get_samples_float_interleaved, Session.call,
      Session.calls, hCne, hlen, hn, h0]
  · have hover : ¬ c.size < n * C * 4 := by omega
    simp [XNA_SongSubmitBuffer, stb_vorbis_get_samples_float_interleaved, Session.call,
      Session.calls, hCne, hlen, hn, h0, hover, hmod, FAudioSourceVoice_SubmitSourceBuffer,
      refillBuffer, sizeof_float, hbytes]

/-- The same when moreover the request `sample_rate * channels` fits an `int`: the refill
then asks for exactly `sample_rate` samples per channel. -/
theorem songSubmitBuffer_eq (s : Session) (v : Voice) (f : stb_vorbis) (c : Cache)
    (hv : s.songVoice = some v) (hf : s.activeVorbis = some f) (hc : s.songCache = some c)
    (hch : 0 < s.activeVorbisInfo.channels)
    (hreq : s.activeVorbisInfo.sample_rate * s.activeVorbisInfo.channels < 2 ^ 31)
    (hfit : min s.activeVorbisInfo.sample_rate (f.total - f.pos) *
      s.activeVorbisInfo.channels * 4 ≤ c.size)
    (hsz : c.size < 2 ^ 32) :
    (XNA_SongSubmitBuffer s).1 = .ok () ∧
    (XNA_SongSubmitBuffer s).2.songVoice =
      some { v with queue := v.queue ++
        (if min s.activeVorbisInfo.sample_rate (f.total - f.pos) = 0 then []
         else [refillBuffer s.activeVorbisInfo (some c)
                (min s.activeVorbisInfo.sample_rate (f.total - f.pos))]) } ∧
    (XNA_SongSubmitBuffer s).2.activeVorbis =
      some { f with pos := f.pos + min s.activeVorbisInfo.sample_rate (f.total - f.pos) } ∧
    (XNA_SongSubmitBuffer s).2.songCache = some c ∧
    (XNA_SongSubmitBuffer s).2.songVolume = s.songVolume ∧
    (XNA_SongSubmitBuffer s).2.activeVorbisInfo = s.activeVorbisInfo ∧
    (XNA_SongSubmitBuffer s).2.calls = s.calls ++
      (.stb_vorbis_get_samples_float_interleaved s.activeVorbisInfo.channels
          ((s.activeVorbisInfo.sample_rate * s.activeVorbisInfo.channels : Nat) : Int) ::
        (if min s.activeVorbisInfo.sample_rate (f.total - f.pos) = 0 then []
         else [.FAudioSourceVoice_SubmitSourceBuffer
                (refillBuffer s.activeVorbisInfo (some c)
                  (min s.activeVorbisInfo.sample_rate (f.total - f.pos)))])) := by
  have hL := requestLen_eq s.activeVorbisInfo hch hreq
  have hI := toInt32_of_lt _ hreq
  have := songSubmitBuffer_gen s v f c hv hf hc hch (by rw [hL]; exact hfit) hsz
  rw [hL, hI] at this
  exact this

/-! ## The tail and the decoder branch of `XNA_PlaySong` -/

theorem playSong_start_eq (s : Session) (v : Voice) (d : F32) (hv : s.songVoice = some v) :
    (XNA_PlaySong_start s d).1 = .ok d ∧
    (XNA_PlaySong_start s d).2.songVoice =
      some { v with volume := s.songVolume, started := true } ∧
    (XNA_PlaySong_start s d).2.songVolume = s.songVolume ∧
    (XNA_PlaySong_start s d).2.songCache = s.songCache ∧
    (XNA_PlaySong_start s d).2.activeVorbis = s.activeVorbis ∧
    (XNA_PlaySong_start s d).2.calls =
      s.calls ++ [.FAudioVoice_SetVolume s.songVolume, .FAudioSourceVoice_Start] := by
  obtain ⟨vol, voice, info, vorbis, cache, tr⟩ := s
  simp only at hv
  subst hv
  simp [XNA_PlaySong_start, FAudioVoice_SetVolume, FAudioSourceVoice_Start, Session.call,
    Session.calls]

theorem playSong_start_null (s : Session) (d : F32) (hv : s.songVoice = none) :
    (XNA_PlaySong_start s d).1 = .error .nullVoice := by
  obtain ⟨vol, voice, info, vorbis, cache, tr⟩ := s
  simp only at hv
  subst hv
  simp [XNA_PlaySong_start, FAudioVoice_SetVolume, Session.call]

/-- Within the widths of `FAudioWaveFormatEx` the byte rate is not truncated. -/
theorem waveFormat_avgBytes (info : stb_vorbis_info) (hal : info.channels * 4 < 2 ^ 16)
    (hrate : info.sample_rate * info.channels * 4 < 2 ^ 32) :
    (waveFormat info).nAvgBytesPerSec = info.sample_rate * info.channels * 4 := by
  obtain ⟨R, C⟩ := info
  simp only at hal hrate
  have h1 : C % 65536 = C := Nat.mod_eq_of_lt (by omega)
  have h2 : C * 32 / 8 = C * 4 := by omega
  have h3 : C * 4 % 65536 = C * 4 := Nat.mod_eq_of_lt (by omega)
  by_cases hC : C = 0
  · subst hC; simp [waveFormat, sizeof_float]
  · have hR : R ≤ R * C := Nat.le_mul_of_pos_right R (by omega)
    have h4 : R % 4294967296 = R := Nat.mod_eq_of_lt (by omega)
    have h5 : R * (C * 4) % 4294967296 = R * (C * 4) := Nat.mod_eq_of_lt (by rw [← Nat.mul_assoc]; omega)
    simp [waveFormat, sizeof_float, h1, h2, h3, h4, h5, Nat.mul_assoc]

theorem playSong_setup_fields (w : World) (f : stb_vorbis) (s : Session) :
    (XNA_PlaySong_setup w f s).songVoice =
      (if w.FAudio_CreateSourceVoice (waveFormat ⟨f.sample_rate, f.channels⟩)
       then some (Voice.fresh (waveFormat ⟨f.sample_rate, f.channels⟩)) else s.songVoice) ∧
    (XNA_PlaySong_setup w f s).songCache =
      (if w.FAudio_malloc (waveFormat ⟨f.sample_rate, f.channels⟩).nAvgBytesPerSec
       then some ⟨(waveFormat ⟨f.sample_rate, f.channels⟩).nAvgBytesPerSec⟩ else none) ∧
    (XNA_PlaySong_setup w f s).activeVorbis = some { f with pos := 0 } ∧
    (XNA_PlaySong_setup w f s).activeVorbisInfo = ⟨f.sample_rate, f.channels⟩ ∧
    (XNA_PlaySong_setup w f s).songVolume = s.songVolume :=
  ⟨rfl, rfl, rfl, rfl, rfl⟩

/-- The decoder branch runs to its end when the engine creates the voice, the allocator
returns the cache, the stream has at least one channel and its format fits the widths of
`FAudioWaveFormatEx`. -/
theorem playSong_vorbis_ok (w : World) (f : stb_vorbis) (s : Session)
    (hcreate : w.FAudio_CreateSourceVoice (waveFormat ⟨f.sample_rate, f.channels⟩) = true)
    (hmalloc : w.FAudio_malloc (waveFormat ⟨f.sample_rate, f.channels⟩).nAvgBytesPerSec = true)
    (hch : 0 < f.channels) (hal : f.channels * 4 < 2 ^ 16)
    (hrate : f.sample_rate * f.channels * 4 < 2 ^ 32) :
    (XNA_PlaySong_vorbis w f s).1 = .ok f.seconds ∧
    (XNA_PlaySong_vorbis w f s).2.songVolume = s.songVolume ∧
    (XNA_PlaySong_vorbis w f s).2.songVoice =
      some { Voice.fresh (waveFormat ⟨f.sample_rate, f.channels⟩) with
        volume := s.songVolume, started := true,
        queue := if min f.sample_rate f.total = 0 then []
          else [refillBuffer ⟨f.sample_rate, f.channels⟩
                  (some ⟨f.sample_rate * f.channels * 4⟩) (min f.sample_rate f.total)] } ∧
    (XNA_PlaySong_vorbis w f s).2.songCache = some ⟨f.sample_rate * f.channels * 4⟩ ∧
    (XNA_PlaySong_vorbis w f s).2.activeVorbis = some { f with pos := min f.sample_rate f.total } ∧
    ∃ pre, (XNA_PlaySong_vorbis w f s).2.calls =
      pre ++ [.FAudioVoice_SetVolume s.songVolume, .FAudioSourceVoice_Start] := by
  have hfmt := waveFormat_avgBytes ⟨f.sample_rate, f.channels⟩ hal hrate
  simp only at hfmt
  obtain ⟨g1, g2, g3, g4, g5⟩ := playSong_setup_fields w f s
  rw [hcreate] at g1
  rw [hmalloc, hfmt] at g2
  simp only [if_true] at g1 g2
  have hmin : min f.sample_rate (f.total - 0) ≤ f.sample_rate := Nat.min_le_left _ _
  have hR : f.sample_rate ≤ f.sample_rate * f.channels := Nat.le_mul_of_pos_right _ hch
  have hmul : min f.sample_rate (f.total - 0) * f.channels ≤ f.sample_rate * f.channels :=
    Nat.mul_le_mul_right _ hmin
  obtain ⟨r1, r2, r3, r4, r5, r6, r7⟩ := songSubmitBuffer_eq (XNA_PlaySong_setup w f s)
    _ { f with pos := 0 } ⟨f.sample_rate * f.channels * 4⟩ g1 g3 g2
    (by rw [g4]; exact hch) (by rw [g4]; simp only; omega)
    (by rw [g4]; simp only; omega) (by simp only; omega)
  rw [g4] at r2 r3 r7
  simp only [Nat.sub_zero, Nat.zero_add] at r2 r3 r7
  unfold XNA_PlaySong_vorbis
  generalize XNA_SongSubmitBuffer (XNA_PlaySong_setup w f s) = r at r1 r2 r3 r4 r5 r6 r7
  obtain ⟨e, s8⟩ := r
  simp only at r1 r2 r3 r4 r5 r6 r7
  subst r1
  simp only
  have hv9 : (s8.call .stb_vorbis_stream_length_in_seconds).songVoice = _ := r2
  have ha9 : (s8.call .stb_vorbis_stream_length_in_seconds).activeVorbis = _ := r3
  rw [show (s8.call .stb_vorbis_stream_length_in_seconds).activeVorbis = s8.activeVorbis from rfl, r3]
  simp only
  obtain ⟨t1, t2, t3, t4, t5, t6⟩ := playSong_start_eq
    (s8.call .stb_vorbis_stream_length_in_seconds) _ f.seconds hv9
  have hvol9 : (s8.call .stb_vorbis_stream_length_in_seconds).songVolume = s.songVolume :=
    r5.trans g5
  rw [hvol9] at t6
  refine ⟨t1, ?_, ?_, ?_, ?_, ⟨_, t6⟩⟩
  · rw [t3]; exact r5.trans g5
  · rw [t2]
    show _ = _
    rw [show (s8.call .stb_vorbis_stream_length_in_seconds).songVolume = s8.songVolume from rfl,
      r5, g5]
    simp [Voice.fresh]
  · rw [t4]; exact r4
  · rw [t5]; exact ha9

theorem songSubmitBuffer_volume (s : Session) :
    (XNA_SongSubmitBuffer s).2.songVolume = s.songVolume := by
  obtain ⟨vol, voice, info, vorbis, cache, tr⟩ := s
  unfold XNA_SongSubmitBuffer
  simp only []
  split
  · rfl
  · split
    · rfl
    · cases voice <;> rfl

/-- When the tail of `XNA_PlaySong` returns, it has set the volume of the voice to the
remembered volume and then started the voice. -/
theorem playSong_start_returns (s : Session) (d d1 : F32)
    (h : (XNA_PlaySong_start s d).1 = .ok d1) :
    (XNA_PlaySong_start s d).2.songVolume = s.songVolume ∧
    ∃ vc pre, (XNA_PlaySong_start s d).2.songVoice = some vc ∧ vc.volume = s.songVolume ∧
      vc.started = true ∧
      (XNA_PlaySong_start s d).2.calls =
        pre ++ [.FAudioVoice_SetVolume s.songVolume, .FAudioSourceVoice_Start] := by
  cases hv : s.songVoice with
  | none => rw [playSong_start_null s d hv] at h; cases h
  | some v =>
    obtain ⟨_, t2, t3, _, _, t6⟩ := playSong_start_eq s v d hv
    exact ⟨t3, _, _, t2, rfl, rfl, t6⟩

theorem playSong_vorbis_returns (w : World) (f : stb_vorbis) (s : Session) (d1 : F32)
    (h : (XNA_PlaySong_vorbis w f s).1 = .ok d1) :
    (XNA_PlaySong_vorbis w f s).2.songVolume = s.songVolume ∧
    ∃ vc pre, (XNA_PlaySong_vorbis w f s).2.songVoice = some vc ∧ vc.volume = s.songVolume ∧
      vc.started = true ∧
      (XNA_PlaySong_vorbis w f s).2.calls =
        pre ++ [.FAudioVoice_SetVolume s.songVolume, .FAudioSourceVoice_Start] := by
  have hvol := songSubmitBuffer_volume (XNA_PlaySong_setup w f s)
  rw [(playSong_setup_fields w f s).2.2.2.2] at hvol
  unfold XNA_PlaySong_vorbis at h ⊢
  generalize XNA_SongSubmitBuffer (XNA_PlaySong_setup w f s) = r at h hvol ⊢
  obtain ⟨e, s8⟩ := r
  cases e with
  | error e => cases h
  | ok u =>
    simp only at h hvol ⊢
    split at h
    · cases h
    · rename_i g hg
      have hv9 : (s8.call .stb_vorbis_stream_length_in_seconds).songVolume = s.songVolume := hvol
      have := playSong_start_returns _ _ _ h
      rw [hv9] at this
      exact this

theorem playSong_of_open (w : World) (name : List Char) (s : Session) (f : stb_vorbis)
    (h : usesVorbis name = true) (ho : w.stb_vorbis_open_filename name = some f) :
    ∃ s2 : Session, s2.songVolume = s.songVolume ∧
      XNA_PlaySong w name s = XNA_PlaySong_vorbis w f s2 := by
  refine ⟨({ (XNA_SongKill w s).call (.stb_vorbis_open_filename name) with
      activeVorbis := w.stb_vorbis_open_filename name } : Session).call .stb_vorbis_get_info,
    (kill_fields w s).2.2.2.1, ?_⟩
  unfold XNA_PlaySong
  simp only [h, if_true]
  split
  · rename_i hn
    change w.stb_vorbis_open_filename name = none at hn
    rw [ho] at hn; cases hn
  · rename_i g hg
    change w.stb_vorbis_open_filename name = some g at hg
    rw [ho] at hg; cases hg; rfl

/-- When the decoder cannot open the name, `XNA_PlaySong` hands the NULL handle to
`stb_vorbis_get_info`. -/
theorem playSong_of_open_failure (w : World) (name : List Char) (s : Session)
    (h : usesVorbis name = true) (ho : w.stb_vorbis_open_filename name = none) :
    (XNA_PlaySong w name s).1 = .error .nullDecoder := by
  unfold XNA_PlaySong
  simp only [h, if_true]
  split
  · rfl
  · rename_i g hg
    change w.stb_vorbis_open_filename name = some g at hg
    rw [ho] at hg; cases hg

/-- What the other branch does, case by case. -/
theorem playSong_other (w : World) (name : List Char) (s : Session)
    (h : usesVorbis name = false) :
    ∃ s2 : Session, s2.songVolume = s.songVolume ∧
      s2.songVoice = (w.FAudio_GSTREAMER_play name s.songVolume).2 ∧
      s2.songCache = none ∧ s2.activeVorbis = none ∧
      XNA_PlaySong w name s =
        if w.HAVE_GSTREAMER then
          if (w.FAudio_GSTREAMER_play name s.songVolume).1.leZero ||
              (w.FAudio_GSTREAMER_play name s.songVolume).2.isNone
          then (.ok F32.zero, s2)
          else XNA_PlaySong_start s2 (w.FAudio_GSTREAMER_play name s.songVolume).1
        else (.ok F32.zero, ({ XNA_SongKill w s with activeVorbis := none } : Session).call
          .FAudio_assert) := by
  obtain ⟨k1, k2, k3, k4, k5⟩ := kill_fields w s
  refine ⟨{ ({ XNA_SongKill w s with activeVorbis := none } : Session).call
      (.FAudio_GSTREAMER_play name s.songVolume) with
      songVoice := (w.FAudio_GSTREAMER_play name s.songVolume).2 }, k4, rfl, k2, rfl, ?_⟩
  unfold XNA_PlaySong
  simp only [h, Bool.false_eq_true, if_false, k4]

/-- The two failure returns of the other branch: without the pipeline, or when the pipeline
reports a non-positive duration or leaves no voice, `XNA_PlaySong` returns 0.0 and the
remembered volume is what it was. -/
theorem playSong_other_failure (w : World) (name : List Char) (s : Session)
    (h : usesVorbis name = false)
    (hfail : w.HAVE_GSTREAMER = false ∨
      (w.FAudio_GSTREAMER_play name s.songVolume).1.leZero = true ∨
      (w.FAudio_GSTREAMER_play name s.songVolume).2 = none) :
    (XNA_PlaySong w name s).1 = .ok F32.zero ∧
    (XNA_PlaySong w name s).2.songVolume = s.songVolume := by
  obtain ⟨s2, hv2, _, _, _, heq⟩ := playSong_other w name s h
  rw [heq]
  cases hg : w.HAVE_GSTREAMER with
  | false =>
    rw [if_neg (by simp)]
    exact ⟨rfl, (kill_fields w s).2.2.2.1⟩
  | true =>
    have hc : ((w.FAudio_GSTREAMER_play name s.songVolume).1.leZero ||
        (w.FAudio_GSTREAMER_play name s.songVolume).2.isNone) = true := by
      rcases hfail with h1 | h1 | h1
      · rw [hg] at h1; cases h1
      · rw [h1]; rfl
      · rw [h1]; simp
    rw [if_pos rfl, if_pos hc]
    exact ⟨rfl, hv2⟩

theorem songSubmitBuffer_cache (s : Session) :
    (XNA_SongSubmitBuffer s).2.songCache = s.songCache := by
  obtain ⟨vol, voice, info, vorbis, cache, tr⟩ := s
  unfold XNA_SongSubmitBuffer
  simp only []
  split
  · rfl
  · split
    · rfl
    · cases voice <;> rfl

theorem playSong_start_cache (s : Session) (d : F32) :
    (XNA_PlaySong_start s d).2.songCache = s.songCache := by
  obtain ⟨vol, voice, info, vorbis, cache, tr⟩ := s
  cases voice <;> rfl

/-- Whatever `XNA_PlaySong` does, the cache it leaves behind is a block of fewer than 2^32
bytes: its size is the 32-bit field `nAvgBytesPerSec`. -/
theorem playSong_cache_size (w : World) (name : List Char) (s : Session) (c : Cache)
    (h : (XNA_PlaySong w name s).2.songCache = some c) : c.size < 2 ^ 32 := by
  cases hu : usesVorbis name with
  | false =>
    obtain ⟨s2, _, _, hc2, _, heq⟩ := playSong_other w name s hu
    rw [heq] at h
    cases hg : w.HAVE_GSTREAMER with
    | false =>
      rw [hg] at h
      simp only [Bool.false_eq_true, if_false] at h
      have hk : (({ XNA_SongKill w s with activeVorbis := none } : Session).call
          .FAudio_assert).songCache = (XNA_SongKill w s).songCache := rfl
      rw [hk, (kill_fields w s).2.1] at h
      cases h
    | true =>
      rw [hg] at h
      simp only [if_true] at h
      split at h
      · rw [hc2] at h; cases h
      · rw [playSong_start_cache, hc2] at h; cases h
  | true =>
    cases ho : w.stb_vorbis_open_filename name with
    | none =>
      unfold XNA_PlaySong at h
      simp only [hu, if_true] at h
      split at h
      · have hk : (({ (XNA_SongKill w s).call (.stb_vorbis_open_filename name) with
            activeVorbis := w.stb_vorbis_open_filename name } : Session).call
            .stb_vorbis_get_info).songCache = (XNA_SongKill w s).songCache := rfl
        rw [hk, (kill_fields w s).2.1] at h
        cases h
      · rename_i g hg
        change w.stb_vorbis_open_filename name = some g at hg
        rw [ho] at hg; cases hg
    | some f =>
      obtain ⟨s2, _, heq⟩ := playSong_of_open w name s f hu ho
      rw [heq] at h
      have hset := (playSong_setup_fields w f s2).2.1
      have hsub := songSubmitBuffer_cache (XNA_PlaySong_setup w f s2)
      have hlt : (waveFormat ⟨f.sample_rate, f.channels⟩).nAvgBytesPerSec < 2 ^ 32 :=
        Nat.mod_lt _ (by norm_num)
      have hfin : (XNA_PlaySong_vorbis w f s2).2.songCache =
          (XNA_PlaySong_setup w f s2).songCache := by
        unfold XNA_PlaySong_vorbis
        generalize XNA_SongSubmitBuffer (XNA_PlaySong_setup w f s2) = r at hsub ⊢
        obtain ⟨e, s8⟩ := r
        cases e with
        | error e => exact hsub
        | ok u =>
          simp only
          split
          · exact hsub
          · rw [playSong_start_cache]; exact hsub
      rw [hfin, hset] at h
      split at h
      · cases h; exact hlt
      · cases h

/-! ## Format resolution -/

/-- C1: `XNA_PlaySong` takes the stream-decoder branch exactly when the name has at least
four characters and its last four are ".ogg" or ".oga", compared character by character;
the condition reads nothing but the name.  In that branch the first call after the teardown
opens the decoder on the name and no pipeline call follows; for every other name the first
call after the teardown is the pipeline's play (the assertion in a build without the
pipeline) and no decoder call follows. -/
theorem C1_format_resolution (w : World) (name : List Char) (s : Session) :
    (usesVorbis name = true ↔
      4 ≤ (cstr name).length ∧
        ((cstr name).drop ((cstr name).length - 4) = ".ogg".toList ∨
         (cstr name).drop ((cstr name).length - 4) = ".oga".toList)) ∧
    (usesVorbis name = true →
      ∃ rest, (XNA_PlaySong w name s).2.calls =
          (XNA_SongKill w s).calls ++ .stb_vorbis_open_filename name :: rest ∧
        ∀ c ∈ rest, c.isPipeline = false) ∧
    (usesVorbis name = false →
      ∃ rest, (XNA_PlaySong w name s).2.calls =
          (XNA_SongKill w s).calls ++
            (if w.HAVE_GSTREAMER then Call.FAudio_GSTREAMER_play name s.songVolume
              else Call.FAudio_assert) :: rest ∧
        ∀ c ∈ rest, c.isDecoder = false) :=
  ⟨usesVorbis_iff name, playSong_calls_vorbis w name s, playSong_calls_other w name s⟩

/-- C1 at "track.ogg" (decoder branch) and at "track.OGG" (the other branch, with the
pipeline compiled in). -/
theorem C1_format_resolution_witness :
    (∃ rest, (XNA_PlaySong vorbisWorld "track.ogg".toList Session.initial).2.calls =
        (XNA_SongKill vorbisWorld Session.initial).calls ++
          .stb_vorbis_open_filename "track.ogg".toList :: rest ∧
      ∀ c ∈ rest, c.isPipeline = false) ∧
    (∃ rest, (XNA_PlaySong pipelineWorld "track.OGG".toList Session.initial).2.calls =
        (XNA_SongKill pipelineWorld Session.initial).calls ++
          (if pipelineWorld.HAVE_GSTREAMER
            then Call.FAudio_GSTREAMER_play "track.OGG".toList Session.initial.songVolume
            else Call.FAudio_assert) :: rest ∧
      ∀ c ∈ rest, c.isDecoder = false) :=
  ⟨(C1_format_resolution vorbisWorld "track.ogg".toList Session.initial).2.1 (by decide),
   (C1_format_resolution pipelineWorld "track.OGG".toList Session.initial).2.2 (by decide)⟩

/-! ## Failure paths -/

/-- C2, at the failing input: the decoder cannot open "missing.ogg", and `XNA_PlaySong`
does not return 0.0; it goes on to `stb_vorbis_get_info` with the NULL handle. -/
theorem C2_open_failure_not_reported :
    usesVorbis "missing.ogg".toList = true ∧
    vorbisWorld.stb_vorbis_open_filename "missing.ogg".toList = none ∧
    (XNA_PlaySong vorbisWorld "missing.ogg".toList Session.initial).1 = .error .nullDecoder ∧
    (XNA_PlaySong vorbisWorld "missing.ogg".toList Session.initial).1 ≠ .ok F32.zero ∧
    (XNA_PlaySong vorbisWorld "missing.ogg".toList Session.initial).2.calls =
      [.stb_vorbis_open_filename "missing.ogg".toList, .stb_vorbis_get_info] := by
  decide

/-- C3, at the failing input: the pipeline reports a zero duration for "live.mp3" but has
produced a voice; `XNA_PlaySong` returns 0.0 and the session still holds that voice. -/
theorem C3_failed_play_keeps_voice :
    usesVorbis "live.mp3".toList = false ∧
    pipelineWorld.FAudio_GSTREAMER_play "live.mp3".toList F32.one =
      (F32.zero, some pipelineVoice) ∧
    (XNA_PlaySong pipelineWorld "live.mp3".toList Session.initial).1 = .ok F32.zero ∧
    (XNA_PlaySong pipelineWorld "live.mp3".toList Session.initial).2.songVoice =
      some pipelineVoice ∧
    ¬ (XNA_PlaySong pipelineWorld "live.mp3".toList Session.initial).2.Stopped := by
  decide

/-! ## Volume -/

/-- C8: `XNA_SetSongVolume v` stores `v` as the remembered volume in every state; with a
voice it hands exactly `v` to `FAudioVoice_SetVolume` (one call, nothing else changes),
without a voice it makes no call.  Whenever a later `XNA_PlaySong` runs to its final
`return duration` (any return of the decoder branch, a non-zero return of the pipeline
branch), the remembered volume is still `v`, the voice carries volume `v`, and the last two
calls are `FAudioVoice_SetVolume v` followed by `FAudioSourceVoice_Start`. -/
theorem C8_volume_verbatim (w : World) (v : F32) :
    (∀ s : Session,
      XNA_SetSongVolume v s =
        match s.songVoice with
        | none => { s with songVolume := v }
        | some vc =>
          { s with
            songVolume := v
            songVoice := some { vc with volume := v }
            trace := s.trace ++
              [⟨.FAudioVoice_SetVolume v, true, s.songCache.isSome, s.activeVorbis.isSome⟩] }) ∧
    (∀ (s : Session) (name : List Char) (d : F32), s.Stopped →
      (XNA_PlaySong w name (XNA_SetSongVolume v s)).1 = .ok d →
      (usesVorbis name = true ∨ d ≠ F32.zero) →
      (XNA_PlaySong w name (XNA_SetSongVolume v s)).2.songVolume = v ∧
      ∃ vc pre, (XNA_PlaySong w name (XNA_SetSongVolume v s)).2.songVoice = some vc ∧
        vc.volume = v ∧ vc.started = true ∧
        (XNA_PlaySong w name (XNA_SetSongVolume v s)).2.calls =
          pre ++ [.FAudioVoice_SetVolume v, .FAudioSourceVoice_Start]) := by
  constructor
  · intro s
    obtain ⟨vol, voice, info, vorbis, cache, tr⟩ := s
    cases voice <;> rfl
  · intro s name d hstop hok hsucc
    have hvol : (XNA_SetSongVolume v s).songVolume = v := by
      obtain ⟨vol, voice, info, vorbis, cache, tr⟩ := s
      cases voice <;> rfl
    generalize XNA_SetSongVolume v s = t at hok hvol ⊢
    cases hu : usesVorbis name with
    | true =>
      cases ho : w.stb_vorbis_open_filename name with
      | none =>
        rw [playSong_of_open_failure w name t hu ho] at hok
        cases hok
      | some f =>
        obtain ⟨s2, hv2, heq⟩ := playSong_of_open w name t f hu ho
        rw [heq] at hok ⊢
        have := playSong_vorbis_returns w f s2 d hok
        rw [hv2, hvol] at this
        exact this
    | false =>
      have hd : d ≠ F32.zero := by
        rcases hsucc with h | h
        · rw [hu] at h; cases h
        · exact h
      obtain ⟨s2, hv2, _, _, _, heq⟩ := playSong_other w name t hu
      rw [heq] at hok ⊢
      cases hg : w.HAVE_GSTREAMER with
      | false =>
        rw [hg] at hok
        simp only [Bool.false_eq_true, if_false] at hok
        cases hok
        exact absurd rfl hd
      | true =>
        rw [hg] at hok
        simp only [if_true] at hok ⊢
        split at hok
        · cases hok
          exact absurd rfl hd
        · rename_i hc
          rw [if_neg hc]
          have := playSong_start_returns s2 _ d hok
          rw [hv2] at this
          rw [hvol] at this ⊢
          exact this

/-- C8 at volume 0.5f (0x3F000000), set on the initial session before "song.mp3" is played
through the pipeline. -/
theorem C8_volume_verbatim_witness :
    (XNA_PlaySong pipelineWorld "song.mp3".toList
        (XNA_SetSongVolume ⟨0x3F000000⟩ Session.initial)).2.songVolume = ⟨0x3F000000⟩ ∧
    ∃ vc pre, (XNA_PlaySong pipelineWorld "song.mp3".toList
        (XNA_SetSongVolume ⟨0x3F000000⟩ Session.initial)).2.songVoice = some vc ∧
      vc.volume = ⟨0x3F000000⟩ ∧ vc.started = true ∧
      (XNA_PlaySong pipelineWorld "song.mp3".toList
        (XNA_SetSongVolume ⟨0x3F000000⟩ Session.initial)).2.calls =
          pre ++ [.FAudioVoice_SetVolume ⟨0x3F000000⟩, .FAudioSourceVoice_Start] :=
  (C8_volume_verbatim pipelineWorld ⟨0x3F000000⟩).2 Session.initial "song.mp3".toList
    ⟨0x43340000⟩ (by decide) (by decide) (Or.inr (by decide))

/-! ## Control operations on a stopped session -/

/-- C9: on a session without voice, decoder and cache, `XNA_StopSong`, `XNA_PauseSong` and
`XNA_ResumeSong` return the session unchanged, trace included, so they make no call; and
from every state stopping twice is the same as stopping once. -/
theorem C9_stopped_noops (w : World) :
    (∀ s : Session, s.Stopped →
      XNA_StopSong w s = s ∧ XNA_PauseSong s = s ∧ XNA_ResumeSong s = s) ∧
    (∀ s : Session, XNA_StopSong w (XNA_StopSong w s) = XNA_StopSong w s) := by
  constructor
  · intro s hs
    refine ⟨kill_of_stopped w s hs, ?_, ?_⟩
    · unfold XNA_PauseSong; rw [hs.1]
    · unfold XNA_ResumeSong; rw [hs.1]
  · intro s
    exact kill_of_stopped w _ (kill_stopped w s)

/-- C9 on the initial session. -/
theorem C9_stopped_noops_witness :
    XNA_StopSong vorbisWorld Session.initial = Session.initial ∧
    XNA_PauseSong Session.initial = Session.initial ∧
    XNA_ResumeSong Session.initial = Session.initial :=
  (C9_stopped_noops vorbisWorld).1 Session.initial (by decide)

/-! ## Buffer refill protocol -/

/-- C4: on a session with a live voice, decoder and cache (a block below 2^32 bytes that
holds the samples handed out) and at least one channel, the refill asks for at most
`sample_rate` samples per channel and returns; if the decoder hands out `decoded = 0`
samples no buffer is submitted; otherwise exactly one buffer is submitted, with
`AudioBytes = decoded * channels * 4`, the cache as data pointer, `PlayBegin = 0`,
`PlayLength = decoded`, no loop, and the end-of-stream flag set iff
`decoded < sample_rate`. -/
theorem C4_refill_buffer (s : Session) (v : Voice) (f : stb_vorbis) (c : Cache)
    (hv : s.songVoice = some v) (hf : s.activeVorbis = some f) (hc : s.songCache = some c)
    (hch : 0 < s.activeVorbisInfo.channels)
    (hfit : min (requestLen s.activeVorbisInfo) (f.total - f.pos) *
      s.activeVorbisInfo.channels * 4 ≤ c.size)
    (hsz : c.size < 2 ^ 32) :
    requestLen s.activeVorbisInfo ≤ s.activeVorbisInfo.sample_rate ∧
    (XNA_SongSubmitBuffer s).1 = .ok () ∧
    (min (requestLen s.activeVorbisInfo) (f.total - f.pos) = 0 →
      (XNA_SongSubmitBuffer s).2.songVoice = some v ∧
      (XNA_SongSubmitBuffer s).2.calls = s.calls ++
        [.stb_vorbis_get_samples_float_interleaved s.activeVorbisInfo.channels
          (toInt32 (s.activeVorbisInfo.sample_rate * s.activeVorbisInfo.channels))]) ∧
    (min (requestLen s.activeVorbisInfo) (f.total - f.pos) ≠ 0 →
      ∃ b : FAudioBuffer,
        (XNA_SongSubmitBuffer s).2.songVoice = some { v with queue := v.queue ++ [b] } ∧
        (XNA_SongSubmitBuffer s).2.calls = s.calls ++
          [.stb_vorbis_get_samples_float_interleaved s.activeVorbisInfo.channels
            (toInt32 (s.activeVorbisInfo.sample_rate * s.activeVorbisInfo.channels)),
           .FAudioSourceVoice_SubmitSourceBuffer b] ∧
        b.AudioBytes = min (requestLen s.activeVorbisInfo) (f.total - f.pos) *
          s.activeVorbisInfo.channels * 4 ∧
        b.pAudioData = s.songCache ∧
        b.PlayBegin = 0 ∧
        b.PlayLength = min (requestLen s.activeVorbisInfo) (f.total - f.pos) ∧
        b.LoopBegin = 0 ∧ b.LoopLength = 0 ∧ b.LoopCount = 0 ∧
        (b.Flags = FAUDIO_END_OF_STREAM ↔
          min (requestLen s.activeVorbisInfo) (f.total - f.pos) < s.activeVorbisInfo.sample_rate) ∧
        (b.Flags = 0 ↔
          ¬ min (requestLen s.activeVorbisInfo) (f.total - f.pos) <
            s.activeVorbisInfo.sample_rate)) := by
  obtain ⟨r1, r2, _, _, _, _, r7⟩ := songSubmitBuffer_gen s v f c hv hf hc hch hfit hsz
  refine ⟨(requestLen_le _ hch).1, r1, ?_, ?_⟩
  · intro h0
    rw [h0] at r2 r7
    simp only [if_true, List.append_nil] at r2 r7
    exact ⟨r2, r7⟩
  · intro h0
    rw [if_neg h0] at r2 r7
    refine ⟨_, r2, r7, rfl, hc.symm, rfl, rfl, rfl, rfl, rfl, ?_, ?_⟩
    · by_cases hlt : min (requestLen s.activeVorbisInfo) (f.total - f.pos) <
          s.activeVorbisInfo.sample_rate
      · simp [refillBuffer, hlt]
      · simp [refillBuffer, hlt, FAUDIO_END_OF_STREAM]
    · by_cases hlt : min (requestLen s.activeVorbisInfo) (f.total - f.pos) <
          s.activeVorbisInfo.sample_rate
      · simp [refillBuffer, hlt, FAUDIO_END_OF_STREAM]
      · simp [refillBuffer, hlt]

/-- C4 on a session playing the two-second stream, one second in. -/
theorem C4_refill_buffer_witness :
    0 < playingSession.activeVorbisInfo.channels ∧
    requestLen playingSession.activeVorbisInfo ≤ playingSession.activeVorbisInfo.sample_rate ∧
    (XNA_SongSubmitBuffer playingSession).1 = .ok () :=
  ⟨by decide,
   (C4_refill_buffer playingSession _ _ _ rfl rfl rfl (by decide) (by decide) (by decide)).1,
   (C4_refill_buffer playingSession _ _ _ rfl rfl rfl (by decide) (by decide) (by decide)).2.1⟩

/-- C5, counterexample: "track.ogg" is the two-second stereo stream at 44100 Hz.  The
priming refill of `XNA_PlaySong` hands out 44100 samples per channel; the second refill
hands out the remaining 44100, leaving the decoder exhausted, and its buffer does not carry
the end-of-stream flag; the third refill submits nothing. -/
theorem C5_full_final_chunk_unflagged :
    (XNA_PlaySong vorbisWorld "track.ogg".toList Session.initial).1 = .ok ⟨0x40000000⟩ ∧
    ((XNA_PlaySong vorbisWorld "track.ogg".toList Session.initial).2.songVoice.map
      (fun v => v.queue.map (fun b => (b.PlayLength, b.Flags)))) = some [(44100, 0)] ∧
    ((XNA_SongSubmitBuffer
        (XNA_PlaySong vorbisWorld "track.ogg".toList Session.initial).2).2.songVoice.map
      (fun v => v.queue.map (fun b => (b.PlayLength, b.Flags)))) =
        some [(44100, 0), (44100, 0)] ∧
    ((XNA_SongSubmitBuffer
        (XNA_PlaySong vorbisWorld "track.ogg".toList Session.initial).2).2.activeVorbis.map
      (fun d => d.total - d.pos)) = some 0 ∧
    ((XNA_SongSubmitBuffer (XNA_SongSubmitBuffer
        (XNA_PlaySong vorbisWorld "track.ogg".toList Session.initial).2).2).2.songVoice.map
      (fun v => v.queue.map (fun b => (b.PlayLength, b.Flags)))) =
        some [(44100, 0), (44100, 0)] := by
  decide

/-- The refill that hands out the remaining samples of the stream, at most `sample_rate`
per channel: one buffer of exactly those samples, flagged iff fewer than `sample_rate` were
left; afterwards the decoder is exhausted and the next refill submits nothing. -/
theorem final_refill (s : Session) (v : Voice) (f : stb_vorbis) (c : Cache)
    (hv : s.songVoice = some v) (hf : s.activeVorbis = some f) (hc : s.songCache = some c)
    (hch : 0 < s.activeVorbisInfo.channels)
    (hcap : s.activeVorbisInfo.sample_rate * s.activeVorbisInfo.channels * 4 ≤ c.size)
    (hsz : c.size < 2 ^ 32)
    (hrem : 0 < f.total - f.pos) (hlast : f.total - f.pos ≤ s.activeVorbisInfo.sample_rate) :
    ∃ b : FAudioBuffer,
      (XNA_SongSubmitBuffer s).1 = .ok () ∧
      (XNA_SongSubmitBuffer s).2.songVoice = some { v with queue := v.queue ++ [b] } ∧
      b.PlayLength = f.total - f.pos ∧
      (b.Flags = FAUDIO_END_OF_STREAM ↔ f.total - f.pos < s.activeVorbisInfo.sample_rate) ∧
      (b.Flags = 0 ↔ f.total - f.pos = s.activeVorbisInfo.sample_rate) ∧
      (XNA_SongSubmitBuffer s).2.activeVorbis = some { f with pos := f.total } ∧
      (XNA_SongSubmitBuffer (XNA_SongSubmitBuffer s).2).1 = .ok () ∧
      (XNA_SongSubmitBuffer (XNA_SongSubmitBuffer s).2).2.songVoice =
        (XNA_SongSubmitBuffer s).2.songVoice := by
  have hreq : s.activeVorbisInfo.sample_rate * s.activeVorbisInfo.channels < 2 ^ 31 := by omega
  have hmin : min s.activeVorbisInfo.sample_rate (f.total - f.pos) = f.total - f.pos :=
    Nat.min_eq_right hlast
  have hmul : (f.total - f.pos) * s.activeVorbisInfo.channels ≤
      s.activeVorbisInfo.sample_rate * s.activeVorbisInfo.channels :=
    Nat.mul_le_mul_right _ hlast
  obtain ⟨r1, r2, r3, r4, r5, r6, r7⟩ := songSubmitBuffer_eq s v f c hv hf hc hch hreq
    (by rw [hmin]; omega) hsz
  rw [hmin] at r2 r3
  rw [if_neg (by omega)] at r2
  have hpos : f.pos + (f.total - f.pos) = f.total := by omega
  rw [hpos] at r3
  obtain ⟨q1, q2, _, _, _, _, _⟩ := songSubmitBuffer_eq (XNA_SongSubmitBuffer s).2 _ _ c r2 r3 r4
    (by rw [r6]; exact hch) (by rw [r6]; exact hreq) (by simp) hsz
  refine ⟨_, r1, r2, rfl, ?_, ?_, r3, q1, ?_⟩
  · by_cases hlt : f.total - f.pos < s.activeVorbisInfo.sample_rate
    · simp [refillBuffer, hlt]
    · simp [refillBuffer, hlt, FAUDIO_END_OF_STREAM]
  · by_cases hlt : f.total - f.pos < s.activeVorbisInfo.sample_rate
    · simp [refillBuffer, hlt, FAUDIO_END_OF_STREAM]; omega
    · simp [refillBuffer, hlt]; omega
  · rw [q2, r2]; simp

/-- Where the first `k` refills leave the session: they all return, the decoder has handed
out `k` seconds of samples (or the whole stream, if that is less), and voice, cache and
stream info are still in place. -/
theorem refills_state (k : Nat) (s : Session) (v : Voice) (f : stb_vorbis) (c : Cache)
    (hv : s.songVoice = some v) (hf : s.activeVorbis = some f) (hc : s.songCache = some c)
    (hch : 0 < s.activeVorbisInfo.channels)
    (hcap : s.activeVorbisInfo.sample_rate * s.activeVorbisInfo.channels * 4 ≤ c.size)
    (hsz : c.size < 2 ^ 32) (hpos : f.pos ≤ f.total) :
    (refills k s).1 = .ok () ∧
    (refills k s).2.activeVorbis =
      some { f with pos := f.pos + min (k * s.activeVorbisInfo.sample_rate) (f.total - f.pos) } ∧
    (refills k s).2.songCache = some c ∧
    (refills k s).2.activeVorbisInfo = s.activeVorbisInfo ∧
    ∃ vk, (refills k s).2.songVoice = some vk := by
  induction k generalizing s v f with
  | zero =>
    refine ⟨rfl, ?_, hc, rfl, v, hv⟩
    simp [refills, hf]
  | succ k ih =>
    have hreq : s.activeVorbisInfo.sample_rate * s.activeVorbisInfo.channels < 2 ^ 31 := by
      omega
    have hmin : min s.activeVorbisInfo.sample_rate (f.total - f.pos) ≤
        s.activeVorbisInfo.sample_rate := Nat.min_le_left _ _
    have hmul : min s.activeVorbisInfo.sample_rate (f.total - f.pos) *
        s.activeVorbisInfo.channels ≤
        s.activeVorbisInfo.sample_rate * s.activeVorbisInfo.channels :=
      Nat.mul_le_mul_right _ hmin
    obtain ⟨r1, r2, r3, r4, _, r6, _⟩ := songSubmitBuffer_eq s v f c hv hf hc hch hreq
      (by omega) hsz
    have hstep : refills (k + 1) s = refills k (XNA_SongSubmitBuffer s).2 := by
      rw [refills]
      generalize XNA_SongSubmitBuffer s = r at r1
      obtain ⟨e, t⟩ := r
      simp only at r1
      subst r1
      rfl
    rw [hstep]
    obtain ⟨i1, i2, i3, i4, i5⟩ := ih (XNA_SongSubmitBuffer s).2 _ _ r2 r3 r4
      (by rw [r6]; exact hch) (by rw [r6]; exact hcap)
      (by simp only; omega)
    rw [r6] at i2 i4
    refine ⟨i1, ?_, i3, i4, i5⟩
    rw [i2]
    have hk : (k + 1) * s.activeVorbisInfo.sample_rate =
        k * s.activeVorbisInfo.sample_rate + s.activeVorbisInfo.sample_rate := Nat.succ_mul _ _
    have harith : f.pos + min s.activeVorbisInfo.sample_rate (f.total - f.pos) +
        min (k * s.activeVorbisInfo.sample_rate)
          (f.total - (f.pos + min s.activeVorbisInfo.sample_rate (f.total - f.pos))) =
        f.pos + min ((k + 1) * s.activeVorbisInfo.sample_rate) (f.total - f.pos) := by
      rw [hk]
      omega
    simp only [harith]

/-- C5, amended: take a session with a live voice, a rewound decoder and a cache of one
second, and let the first `k` refills (priming refill, then one per buffer-end callback)
leave samples behind, but at most `sample_rate` per channel.  Then refill number `k + 1`
returns exactly the remaining `total - k * sample_rate` samples in one buffer; that buffer
carries the end-of-stream flag iff fewer than `sample_rate` samples were left, and carries
no flag iff the stream is exactly `k + 1` seconds long; the refill after it submits
nothing. -/
theorem C5_final_chunk_flag (s : Session) (v : Voice) (f : stb_vorbis) (c : Cache) (k : Nat)
    (hv : s.songVoice = some v) (hf : s.activeVorbis = some f) (hc : s.songCache = some c)
    (hch : 0 < s.activeVorbisInfo.channels)
    (hcap : s.activeVorbisInfo.sample_rate * s.activeVorbisInfo.channels * 4 ≤ c.size)
    (hsz : c.size < 2 ^ 32) (hpos : f.pos = 0)
    (hk : k * s.activeVorbisInfo.sample_rate < f.total)
    (hlast : f.total ≤ (k + 1) * s.activeVorbisInfo.sample_rate) :
    (refills k s).1 = .ok () ∧
    ∃ (vk : Voice) (b : FAudioBuffer),
      (refills k s).2.songVoice = some vk ∧
      (XNA_SongSubmitBuffer (refills k s).2).1 = .ok () ∧
      (XNA_SongSubmitBuffer (refills k s).2).2.songVoice =
        some { vk with queue := vk.queue ++ [b] } ∧
      b.PlayLength = f.total - k * s.activeVorbisInfo.sample_rate ∧
      (b.Flags = FAUDIO_END_OF_STREAM ↔
        f.total - k * s.activeVorbisInfo.sample_rate < s.activeVorbisInfo.sample_rate) ∧
      (b.Flags = 0 ↔ f.total = (k + 1) * s.activeVorbisInfo.sample_rate) ∧
      (XNA_SongSubmitBuffer (XNA_SongSubmitBuffer (refills k s).2).2).1 = .ok () ∧
      (XNA_SongSubmitBuffer (XNA_SongSubmitBuffer (refills k s).2).2).2.songVoice =
        (XNA_SongSubmitBuffer (refills k s).2).2.songVoice := by
  obtain ⟨i1, i2, i3, i4, vk, i5⟩ := refills_state k s v f c hv hf hc hch hcap hsz (by omega)
  have hk1 : (k + 1) * s.activeVorbisInfo.sample_rate =
      k * s.activeVorbisInfo.sample_rate + s.activeVorbisInfo.sample_rate := Nat.succ_mul _ _
  have hp : f.pos + min (k * s.activeVorbisInfo.sample_rate) (f.total - f.pos) =
      k * s.activeVorbisInfo.sample_rate := by omega
  rw [hp] at i2
  obtain ⟨b, q1, q2, q3, q4, q5, _, q7, q8⟩ := final_refill (refills k s).2 vk _ c i5 i2 i3
    (by rw [i4]; exact hch) (by rw [i4]; exact hcap) hsz
    (by simp only; omega) (by rw [i4]; simp only; omega)
  rw [i4] at q4 q5
  simp only at q3 q4 q5
  refine ⟨i1, vk, b, i5, q1, q2, q3, q4, ?_, q7, q8⟩
  rw [q5, hk1]
  omega

/-- C5, amended, on the two-second stream: after the priming refill (`k = 1`) one second is
left. -/
theorem C5_final_chunk_flag_witness :
    (refills 1 rewoundSession).1 = .ok () ∧
    ∃ (vk : Voice) (b : FAudioBuffer),
      (refills 1 rewoundSession).2.songVoice = some vk ∧
      (XNA_SongSubmitBuffer (refills 1 rewoundSession).2).1 = .ok () ∧
      (XNA_SongSubmitBuffer (refills 1 rewoundSession).2).2.songVoice =
        some { vk with queue := vk.queue ++ [b] } ∧
      b.PlayLength = 88200 - 1 * 44100 ∧
      (b.Flags = FAUDIO_END_OF_STREAM ↔ 88200 - 1 * 44100 < 44100) ∧
      (b.Flags = 0 ↔ 88200 = (1 + 1) * 44100) ∧
      (XNA_SongSubmitBuffer (XNA_SongSubmitBuffer (refills 1 rewoundSession).2).2).1 = .ok () ∧
      (XNA_SongSubmitBuffer (XNA_SongSubmitBuffer (refills 1 rewoundSession).2).2).2.songVoice =
        (XNA_SongSubmitBuffer (refills 1 rewoundSession).2).2.songVoice :=
  C5_final_chunk_flag rewoundSession _ { twoSecondStream with pos := 0 } ⟨352800⟩ 1
    rfl rfl rfl (by decide) (by decide) (by decide) rfl (by decide) (by decide)

/-! ## A successful play of a decoded file -/

/-- C6, counterexample: "empty.ogg" opens successfully but holds no samples; `XNA_PlaySong`
returns its stream length, the priming refill submits nothing, and `XNA_GetSongEnded`
called right afterwards returns 1 (ended) although the voice exists. -/
theorem C6_empty_stream_reports_ended :
    usesVorbis "empty.ogg".toList = true ∧
    vorbisWorld.stb_vorbis_open_filename "empty.ogg".toList = some emptyStream ∧
    (XNA_PlaySong vorbisWorld "empty.ogg".toList Session.initial).1 = .ok emptyStream.seconds ∧
    (XNA_PlaySong vorbisWorld "empty.ogg".toList Session.initial).2.songVoice.isSome = true ∧
    (XNA_GetSongEnded
      (XNA_PlaySong vorbisWorld "empty.ogg".toList Session.initial).2).1 = 1 := by
  decide

/-- C6, amended: for a name ending in ".ogg" or ".oga" that the decoder opens, when the
engine creates the voice, the allocator returns the cache, the stream has at least one
channel and its format fits the fields of `FAudioWaveFormatEx`, `XNA_PlaySong` returns
exactly the decoder's stream length in seconds; `XNA_GetSongEnded` called right afterwards
returns 0 (not ended) when the priming refill handed out at least one sample, and 1 when the
stream had none to hand out. -/
theorem C6_play_then_ended (w : World) (name : List Char) (s : Session) (f : stb_vorbis)
    (hu : usesVorbis name = true) (ho : w.stb_vorbis_open_filename name = some f)
    (hcreate : w.FAudio_CreateSourceVoice (waveFormat ⟨f.sample_rate, f.channels⟩) = true)
    (hmalloc : w.FAudio_malloc (waveFormat ⟨f.sample_rate, f.channels⟩).nAvgBytesPerSec = true)
    (hch : 0 < f.channels) (hal : f.channels * 4 < 2 ^ 16)
    (hrate : f.sample_rate * f.channels * 4 < 2 ^ 32) :
    (XNA_PlaySong w name s).1 = .ok f.seconds ∧
    (XNA_GetSongEnded (XNA_PlaySong w name s).2).1 =
      (if min f.sample_rate f.total = 0 then 1 else 0) := by
  obtain ⟨s2, _, heq⟩ := playSong_of_open w name s f hu ho
  obtain ⟨p1, _, p3, _, _, _⟩ := playSong_vorbis_ok w f s2 hcreate hmalloc hch hal hrate
  rw [heq]
  refine ⟨p1, ?_⟩
  unfold XNA_GetSongEnded
  rw [p3]
  by_cases h0 : min f.sample_rate f.total = 0 <;> simp [h0]

/-- C6, amended, at "track.ogg". -/
theorem C6_play_then_ended_witness :
    (XNA_PlaySong vorbisWorld "track.ogg".toList Session.initial).1 =
      .ok twoSecondStream.seconds ∧
    (XNA_GetSongEnded (XNA_PlaySong vorbisWorld "track.ogg".toList Session.initial).2).1 =
      (if min twoSecondStream.sample_rate twoSecondStream.total = 0 then 1 else 0) :=
  C6_play_then_ended vorbisWorld "track.ogg".toList Session.initial twoSecondStream
    (by decide) (by decide) (by decide) (by decide) (by decide) (by decide) (by decide)

/-! ## Decode cache capacity -/

/-- C7, at the failing input: "huge.ogg" declares one channel at 2^30 + 1 Hz.  The 32-bit
byte rate wraps to 4, so the cache `XNA_PlaySong` allocates is 4 bytes, less than the
4 * (2^30 + 1) bytes of one second; the priming refill still asks for 2^30 + 1 floats and
the decoder writes the ten samples of the stream past the end of the cache. -/
theorem C7_byte_rate_wraps :
    vorbisWorld.stb_vorbis_open_filename "huge.ogg".toList = some hugeRateStream ∧
    (waveFormat ⟨hugeRateStream.sample_rate, hugeRateStream.channels⟩).nAvgBytesPerSec = 4 ∧
    ¬ (hugeRateStream.sample_rate * hugeRateStream.channels * 4 ≤
      (waveFormat ⟨hugeRateStream.sample_rate, hugeRateStream.channels⟩).nAvgBytesPerSec) ∧
    (XNA_PlaySong vorbisWorld "huge.ogg".toList Session.initial).2.songCache = some ⟨4⟩ ∧
    requestLen ⟨hugeRateStream.sample_rate, hugeRateStream.channels⟩ = 2 ^ 30 + 1 ∧
    (XNA_PlaySong vorbisWorld "huge.ogg".toList Session.initial).1 = .error .cacheOverrun := by
  decide

/-- Where the capacity invariant does hold: when the format fits the fields of
`FAudioWaveFormatEx` (`channels * 4 < 2^16` and `sample_rate * channels * 4 < 2^32`), so
that nothing wraps, the byte rate computed at
XNA_Song.c:224-229 is exactly `sample_rate * channels * 4`, one second of audio; that is the
size of the cache `XNA_PlaySong` allocates; and on a session with that format and a cache of
that size every refill returns, asks the decoder for `capacity / 4` floats, hands out at
most one second of samples, and submits only buffers with `AudioBytes ≤ capacity`. -/
theorem cache_capacity_in_range (info : stb_vorbis_info)
    (hal : info.channels * 4 < 2 ^ 16)
    (hrate : info.sample_rate * info.channels * 4 < 2 ^ 32) :
    (waveFormat info).nAvgBytesPerSec = info.sample_rate * info.channels * 4 ∧
    (∀ (w : World) (name : List Char) (s : Session) (f : stb_vorbis),
      usesVorbis name = true → w.stb_vorbis_open_filename name = some f →
      f.sample_rate = info.sample_rate → f.channels = info.channels → 0 < info.channels →
      w.FAudio_CreateSourceVoice (waveFormat info) = true →
      w.FAudio_malloc (waveFormat info).nAvgBytesPerSec = true →
      (XNA_PlaySong w name s).2.songCache = some ⟨(waveFormat info).nAvgBytesPerSec⟩) ∧
    (∀ (s : Session) (v : Voice) (f : stb_vorbis),
      s.activeVorbisInfo = info → s.songVoice = some v → s.activeVorbis = some f →
      s.songCache = some ⟨(waveFormat info).nAvgBytesPerSec⟩ → 0 < info.channels →
      (XNA_SongSubmitBuffer s).1 = .ok () ∧
      min info.sample_rate (f.total - f.pos) * info.channels * 4 ≤
        (waveFormat info).nAvgBytesPerSec ∧
      ∃ r, (XNA_SongSubmitBuffer s).2.calls = s.calls ++ r ∧
        (∀ ch n, Call.stb_vorbis_get_samples_float_interleaved ch n ∈ r →
          n = (((waveFormat info).nAvgBytesPerSec / 4 : Nat) : Int)) ∧
        (∀ b, Call.FAudioSourceVoice_SubmitSourceBuffer b ∈ r →
          b.AudioBytes ≤ (waveFormat info).nAvgBytesPerSec)) := by
  have hcap := waveFormat_avgBytes info hal hrate
  refine ⟨hcap, ?_, ?_⟩
  · intro w name s f hu ho hsr hc hch hcreate hmalloc
    obtain ⟨s2, _, heq⟩ := playSong_of_open w name s f hu ho
    have hinfo : (⟨f.sample_rate, f.channels⟩ : stb_vorbis_info) = info := by
      rw [hsr, hc]
    obtain ⟨_, _, _, p4, _, _⟩ := playSong_vorbis_ok w f s2 (by rw [hinfo]; exact hcreate)
      (by rw [hinfo]; exact hmalloc) (by rw [hc]; exact hch) (by rw [hc]; exact hal)
      (by rw [hsr, hc]; exact hrate)
    rw [heq, p4, hcap, hsr, hc]
  · intro s v f hi hv hf hc hch
    rw [hcap] at hc ⊢
    subst hi
    have hmin : min s.activeVorbisInfo.sample_rate (f.total - f.pos) ≤
        s.activeVorbisInfo.sample_rate := Nat.min_le_left _ _
    have hmul : min s.activeVorbisInfo.sample_rate (f.total - f.pos) *
        s.activeVorbisInfo.channels ≤
        s.activeVorbisInfo.sample_rate * s.activeVorbisInfo.channels :=
      Nat.mul_le_mul_right _ hmin
    have hfit : min s.activeVorbisInfo.sample_rate (f.total - f.pos) *
        s.activeVorbisInfo.channels * 4 ≤
        s.activeVorbisInfo.sample_rate * s.activeVorbisInfo.channels * 4 := by omega
    obtain ⟨r1, _, _, _, _, _, r7⟩ := songSubmitBuffer_eq s v f _ hv hf hc hch (by omega)
      hfit hrate
    refine ⟨r1, hfit, _, r7, ?_, ?_⟩
    · intro ch n hmem
      have h4 : s.activeVorbisInfo.sample_rate * s.activeVorbisInfo.channels * 4 / 4 =
          s.activeVorbisInfo.sample_rate * s.activeVorbisInfo.channels :=
        Nat.mul_div_cancel _ (by norm_num)
      rw [h4]
      by_cases h0 : min s.activeVorbisInfo.sample_rate (f.total - f.pos) = 0
      · rw [if_pos h0] at hmem
        simp only [List.mem_singleton, Call.stb_vorbis_get_samples_float_interleaved.injEq]
          at hmem
        exact hmem.2
      · rw [if_neg h0] at hmem
        simp only [List.mem_cons, Call.stb_vorbis_get_samples_float_interleaved.injEq,
          List.mem_singleton, reduceCtorEq, List.not_mem_nil, or_false] at hmem
        exact hmem.2
    · intro b hmem
      by_cases h0 : min s.activeVorbisInfo.sample_rate (f.total - f.pos) = 0
      · rw [if_pos h0] at hmem
        simp only [List.mem_singleton, reduceCtorEq] at hmem
      · rw [if_neg h0] at hmem
        simp only [List.mem_cons, reduceCtorEq, List.mem_singleton,
          Call.FAudioSourceVoice_SubmitSourceBuffer.injEq, List.not_mem_nil, or_false,
          false_or] at hmem
        rw [hmem]
        exact hfit

/-- The capacity invariant at the format of the two-second stream: 44100 Hz stereo. -/
theorem cache_capacity_in_range_stereo :
    (waveFormat ⟨44100, 2⟩).nAvgBytesPerSec = 44100 * 2 * 4 ∧
    (XNA_PlaySong vorbisWorld "track.ogg".toList Session.initial).2.songCache =
      some ⟨(waveFormat ⟨44100, 2⟩).nAvgBytesPerSec⟩ ∧
    (XNA_SongSubmitBuffer playingSession).1 = .ok () :=
  ⟨(cache_capacity_in_range ⟨44100, 2⟩ (by decide) (by decide)).1,
   (cache_capacity_in_range ⟨44100, 2⟩ (by decide) (by decide)).2.1 vorbisWorld "track.ogg".toList
      Session.initial twoSecondStream (by decide) (by decide) rfl rfl (by decide)
      (by decide) (by decide),
   ((cache_capacity_in_range ⟨44100, 2⟩ (by decide) (by decide)).2.2 playingSession _
      { twoSecondStream with pos := 44100 } rfl rfl rfl (by decide) (by decide)).1⟩

/-! ## Teardown order -/

/-- C10, counterexample: tearing down a playing session, all three release calls are issued
while the session still holds the handle being released; and a refill that arrives after
the teardown is not a no-op: it calls the decoder, with the NULL handle. -/
theorem C10_release_before_clear :
    ((XNA_SongKill vorbisWorld playingSession).trace.filter Logged.releasesHeldHandle).map
        Logged.call =
      [.FAudioVoice_DestroyVoice, .FAudio_free, .stb_vorbis_close] ∧
    (XNA_SongKill vorbisWorld playingSession).Stopped ∧
    (XNA_SongSubmitBuffer (XNA_SongKill vorbisWorld playingSession)).1 = .error .nullDecoder ∧
    (XNA_SongSubmitBuffer (XNA_SongKill vorbisWorld playingSession)).2.calls =
      (XNA_SongKill vorbisWorld playingSession).calls ++
        [.stb_vorbis_get_samples_float_interleaved 2 88200] := by
  decide

/-- C10, amended: on a session with a live voice, cache and decoder `XNA_SongKill` makes
these calls in this order: `FAudio_GSTREAMER_free` (only for a pipeline voice in a build
with the pipeline), `FAudioSourceVoice_Stop` and `FAudioVoice_DestroyVoice` with `songVoice`
still set; `FAudio_free` with `songVoice` cleared and `songCache` still set;
`stb_vorbis_close` with `songVoice` and `songCache` cleared and `activeVorbis` still set.
Each handle is cleared right after its resource is released, and on return all three are
none.  A refill on a session whose handles are cleared is not guarded: it records a decoder
call and ends in a fault. -/
theorem C10_teardown_order (w : World) (s : Session) (v : Voice) (c : Cache) (f : stb_vorbis)
    (hv : s.songVoice = some v) (hc : s.songCache = some c) (hf : s.activeVorbis = some f) :
    (XNA_SongKill w s).trace = s.trace ++
      (if w.HAVE_GSTREAMER && v.gstreamer
        then [⟨.FAudio_GSTREAMER_free, true, true, true⟩] else []) ++
      [⟨.FAudioSourceVoice_Stop, true, true, true⟩,
       ⟨.FAudioVoice_DestroyVoice, true, true, true⟩,
       ⟨.FAudio_free, false, true, true⟩,
       ⟨.stb_vorbis_close, false, false, true⟩] ∧
    (XNA_SongKill w s).Stopped ∧
    (∀ t : Session, t.Stopped →
      (XNA_SongSubmitBuffer t).1 =
        .error (if t.activeVorbisInfo.channels = 0 then .divideByZero else .nullDecoder) ∧
      (XNA_SongSubmitBuffer t).2.calls = t.calls ++
        [.stb_vorbis_get_samples_float_interleaved t.activeVorbisInfo.channels
          (toInt32 (t.activeVorbisInfo.sample_rate * t.activeVorbisInfo.channels))]) := by
  refine ⟨?_, kill_stopped w s, ?_⟩
  · obtain ⟨vol, voice, info, vorbis, cache, tr⟩ := s
    simp only at hv hc hf
    subst hv hc hf
    by_cases hg : (w.HAVE_GSTREAMER && v.gstreamer) = true
    · simp only [XNA_SongKill, XNA_SongKill_voice, XNA_SongKill_cache, XNA_SongKill_vorbis,
        Session.call, hg, if_true]
      simp
    · simp only [XNA_SongKill, XNA_SongKill_voice, XNA_SongKill_cache, XNA_SongKill_vorbis,
        Session.call, hg, if_false]
      simp
  · intro t ht
    obtain ⟨vol, voice, ⟨R, C⟩, vorbis, cache, tr⟩ := t
    obtain ⟨h1, h2, h3⟩ := ht
    simp only at h1 h2 h3
    subst h1 h2 h3
    by_cases hC : C = 0
    · simp [XNA_SongSubmitBuffer, stb_vorbis_get_samples_float_interleaved, Session.call,
        Session.calls, hC]
    · simp [XNA_SongSubmitBuffer, stb_vorbis_get_samples_float_interleaved, Session.call,
        Session.calls, hC]

/-- C10, amended, on a session playing the two-second stream. -/
theorem C10_teardown_order_witness :
    (XNA_SongKill vorbisWorld playingSession).trace = playingSession.trace ++
      (if vorbisWorld.HAVE_GSTREAMER && (Voice.fresh (waveFormat ⟨44100, 2⟩)).gstreamer
        then [⟨.FAudio_GSTREAMER_free, true, true, true⟩] else []) ++
      [⟨.FAudioSourceVoice_Stop, true, true, true⟩,
       ⟨.FAudioVoice_DestroyVoice, true, true, true⟩,
       ⟨.FAudio_free, false, true, true⟩,
       ⟨.stb_vorbis_close, false, false, true⟩] ∧
    (XNA_SongSubmitBuffer (XNA_SongKill vorbisWorld playingSession)).1 =
      .error (if (XNA_SongKill vorbisWorld playingSession).activeVorbisInfo.channels = 0
        then .divideByZero else .nullDecoder) :=
  ⟨(C10_teardown_order vorbisWorld playingSession
      { Voice.fresh (waveFormat ⟨44100, 2⟩) with started := true } ⟨352800⟩
      { twoSecondStream with pos := 44100 } rfl rfl rfl).1,
   ((C10_teardown_order vorbisWorld playingSession
      { Voice.fresh (waveFormat ⟨44100, 2⟩) with started := true } ⟨352800⟩
      { twoSecondStream with pos := 44100 } rfl rfl rfl).2.2
      (XNA_SongKill vorbisWorld playingSession) (by decide)).1⟩

end XNASong
